import Mathlib

/-!
Shallow embedding of the PSO irrigation-sensor-placement program
(`funciones_objetivo.py`, `config.py`, `algoritmo_pso.py`).

Conventions of the embedding:
* Python floats become real numbers (`ℝ`); exact real arithmetic stands in
  for IEEE arithmetic.
* A Python two-element coordinate list `[lat, lon]` becomes a `List ℝ`
  indexed with `getD` (every call site of the program passes length-2 lists).
* Python code that raises (`KeyError` from a missing crop in
  `value_counts`, the subsequent `ZeroDivisionError`) is embedded as
  `Option`, with `none` for the raising run.
* The ambient NumPy global random generator is embedded as a stream
  `g : ℕ → ℝ` of unit-interval draws together with the current offset into
  the stream; every function that consumes randomness takes the stream and
  its offset and the offset advances by the number of draws the Python
  code performs.
-/

/-- Crop categories of the dataset: the program hard-codes the three keys
Maíz, Tomate and Chile of `conteo_cubierto`. -/
inductive Cultivo
  | maiz
  | tomate
  | chile
deriving DecidableEq

/-- Row of the dataset `DataFrame` (columns built in `crear_datos_ejemplo`
and consumed by the objective functions). -/
structure SamplePoint where
  latitud : ℝ
  longitud : ℝ
  cultivo : Cultivo
  humedad : ℝ
  salinidad : ℝ
  elevacion : ℝ
  temperatura : ℝ

/-- Value `CONFIG['radio_cobertura']` from `config.py`. -/
noncomputable def radio_cobertura : ℝ := 0.012

/-- Value `CONFIG['radio_influencia']` from `config.py`. -/
noncomputable def radio_influencia : ℝ := 0.018

/-- Value `CONFIG['distancia_ideal']` from `config.py`. -/
noncomputable def distancia_ideal : ℝ := 0.025

/-- Value `CONFIG['pesos']['cobertura']` from `config.py`. -/
noncomputable def peso_cobertura : ℝ := 0.35

/-- Value `CONFIG['pesos']['balance_cultivos']` from `config.py`. -/
noncomputable def peso_balance_cultivos : ℝ := 0.25

/-- Value `CONFIG['pesos']['zonas_criticas']` from `config.py`. -/
noncomputable def peso_zonas_criticas : ℝ := 0.25

/-- Value `CONFIG['pesos']['distribucion']` from `config.py`. -/
noncomputable def peso_distribucion : ℝ := 0.15

/-- Function `calcular_distancia` of `funciones_objetivo.py`: Euclidean
distance between two `[lat, lon]` coordinate lists. -/
noncomputable def calcular_distancia (punto1 punto2 : List ℝ) : ℝ :=
  Real.sqrt ((punto1.getD 0 0 - punto2.getD 0 0) ^ 2
    + (punto1.getD 1 0 - punto2.getD 1 0) ^ 2)

/-- Coordinate list `[punto['Latitud'], punto['Longitud']]` built for each
dataset row inside the objective functions. -/
def punto_coords (p : SamplePoint) : List ℝ := [p.latitud, p.longitud]

/-- Python `min` over a nonempty list of floats. `min([])` raises
`ValueError` in Python; the embedding returns 0 on `[]`, a case no claim
exercises (every claim supposes at least one sensor). -/
noncomputable def minimo : List ℝ → ℝ
  | [] => 0
  | [x] => x
  | x :: y :: xs => min x (minimo (y :: xs))

/-- Loop body of `calcular_cobertura_variabilidad`: the credit one dataset
point adds to `puntaje` (1 within `radio_cobertura` of the nearest sensor,
otherwise the floored decaying credit). -/
noncomputable def credito_cobertura (ubicaciones_sensores : List (List ℝ))
    (p : SamplePoint) : ℝ :=
  let dist_minima :=
    minimo (ubicaciones_sensores.map (calcular_distancia (punto_coords p)))
  if dist_minima ≤ radio_cobertura then 1
  else max 0 (1 - (dist_minima - radio_cobertura) / (2 * radio_cobertura))

/-- Function `calcular_cobertura_variabilidad` of `funciones_objetivo.py`:
sum of the per-point credits divided by the number of dataset points. -/
noncomputable def calcular_cobertura_variabilidad
    (ubicaciones_sensores : List (List ℝ)) (datos : List SamplePoint) : ℝ :=
  ((datos.map (credito_cobertura ubicaciones_sensores)).sum) / (datos.length : ℝ)

/-- Count `conteo_total[cultivo]`, i.e. `datos['Cultivo'].value_counts()`
looked up at one crop (0 when the crop is absent; the Python lookup then
raises `KeyError`, handled at the use site below). -/
def conteo_total (datos : List SamplePoint) (cultivo : Cultivo) : ℕ :=
  (datos.filter (fun p => p.cultivo == cultivo)).length

/-- Condition `cubierto` of `balance_entre_cultivos` /
`cubrir_zonas_problematicas`: some sensor lies within `radio` of the
point. -/
def esta_cubierto (ubicaciones_sensores : List (List ℝ)) (radio : ℝ)
    (p : SamplePoint) : Prop :=
  ∃ sensor ∈ ubicaciones_sensores,
    calcular_distancia (punto_coords p) sensor ≤ radio

open Classical in
/-- Counting loop shared by `balance_entre_cultivos` (per-crop covered
count) and `cubrir_zonas_problematicas`: how many of the given points are
covered within `radio`. -/
noncomputable def conteo_cubierto (ubicaciones_sensores : List (List ℝ))
    (radio : ℝ) : List SamplePoint → ℕ
  | [] => 0
  | p :: resto =>
    (if esta_cubierto ubicaciones_sensores radio p then 1 else 0)
      + conteo_cubierto ubicaciones_sensores radio resto

/-- One crop's contribution to the balance loop of
`balance_entre_cultivos`: `min(1 - |proporcion_ideal - cobertura_real|, 1.0)`.
Result `none` embeds the raising run: when the crop has zero dataset
points, `conteo_total[cultivo]` raises `KeyError` (and the division
defining `cobertura_real` would divide by zero). -/
noncomputable def puntaje_cultivo (ubicaciones_sensores : List (List ℝ))
    (datos : List SamplePoint) (cultivo : Cultivo) : Option ℝ :=
  if conteo_total datos cultivo = 0 then none
  else
    let puntos_cultivo := datos.filter (fun p => p.cultivo == cultivo)
    let proporcion_ideal : ℝ := (conteo_total datos cultivo : ℝ) / (datos.length : ℝ)
    let cobertura_real : ℝ :=
      (conteo_cubierto ubicaciones_sensores radio_influencia puntos_cultivo : ℝ)
        / (conteo_total datos cultivo : ℝ)
    some (min (1 - |proporcion_ideal - cobertura_real|) 1)

/-- Function `balance_entre_cultivos` of `funciones_objetivo.py`: mean of
the three per-crop scores, iterating the crops in the dict order
Maíz, Tomate, Chile; `none` when the loop raises at a crop with zero
points. -/
noncomputable def balance_entre_cultivos (ubicaciones_sensores : List (List ℝ))
    (datos : List SamplePoint) : Option ℝ := do
  let pm ← puntaje_cultivo ubicaciones_sensores datos Cultivo.maiz
  let pt ← puntaje_cultivo ubicaciones_sensores datos Cultivo.tomate
  let pc ← puntaje_cultivo ubicaciones_sensores datos Cultivo.chile
  some ((pm + pt + pc) / 3)

/-- Criterion selecting `zonas_criticas` in `cubrir_zonas_problematicas`:
salinity above 2.5, humidity below 15 or humidity above 40. -/
def es_critica (p : SamplePoint) : Prop :=
  (2.5 : ℝ) < p.salinidad ∨ p.humedad < 15 ∨ 40 < p.humedad

open Classical in
/-- Filtered frame `zonas_criticas` of `cubrir_zonas_problematicas`. -/
noncomputable def zonas_criticas (datos : List SamplePoint) : List SamplePoint :=
  datos.filter (fun p => decide (es_critica p))

/-- Function `cubrir_zonas_problematicas` of `funciones_objetivo.py`. -/
noncomputable def cubrir_zonas_problematicas
    (ubicaciones_sensores : List (List ℝ)) (datos : List SamplePoint) : ℝ :=
  let criticas := zonas_criticas datos
  let radio_critico : ℝ := 0.01
  if criticas.length = 0 then 1
  else (conteo_cubierto ubicaciones_sensores radio_critico criticas : ℝ)
    / (criticas.length : ℝ)

/-- Pairwise-distance list of `optimizar_distancias`: distances
`calcular_distancia(s_i, s_j)` for all `i < j`, in loop order. -/
noncomputable def distancias_pares : List (List ℝ) → List ℝ
  | [] => []
  | s :: resto => resto.map (calcular_distancia s) ++ distancias_pares resto

/-- Loop body of `optimizar_distancias`: credit of one pairwise distance
(1 within ±30 % of `distancia_ideal`, otherwise floored decaying
credit). -/
noncomputable def credito_dispersion (dist : ℝ) : ℝ :=
  if distancia_ideal * 0.7 ≤ dist ∧ dist ≤ distancia_ideal * 1.3 then 1
  else max 0 (1 - |dist - distancia_ideal| / distancia_ideal)

/-- Function `optimizar_distancias` of `funciones_objetivo.py`. -/
noncomputable def optimizar_distancias
    (ubicaciones_sensores : List (List ℝ)) : ℝ :=
  if ubicaciones_sensores.length ≤ 1 then 1
  else
    let distancias := distancias_pares ubicaciones_sensores
    ((distancias.map credito_dispersion).sum) / (distancias.length : ℝ)

/-- Function `funcion_objetivo` of `funciones_objetivo.py`: the weighted
combination of the four sub-scores; `none` when `balance_entre_cultivos`
raises. -/
noncomputable def funcion_objetivo (ubicaciones_sensores : List (List ℝ))
    (datos : List SamplePoint) : Option ℝ :=
  let puntaje_cobertura := calcular_cobertura_variabilidad ubicaciones_sensores datos
  (balance_entre_cultivos ubicaciones_sensores datos).map (fun puntaje_cultivos =>
    peso_cobertura * puntaje_cobertura
      + peso_balance_cultivos * puntaje_cultivos
      + peso_zonas_criticas * cubrir_zonas_problematicas ubicaciones_sensores datos
      + peso_distribucion * optimizar_distancias ubicaciones_sensores)

/-- Value `PSO_CONFIG['inercia']` (`self.w`) from `config.py`. -/
noncomputable def inercia : ℝ := 0.7

/-- Value `PSO_CONFIG['cognitivo']` (`self.c1`) from `config.py`. -/
noncomputable def cognitivo : ℝ := 1.5

/-- Value `PSO_CONFIG['social']` (`self.c2`) from `config.py`. -/
noncomputable def social : ℝ := 1.5

/-- Value `PSO_CONFIG['velocidad_maxima']` (`self.vel_max`) from `config.py`. -/
noncomputable def velocidad_maxima : ℝ := 0.005

/-- NumPy `np.clip(x, lo, hi)`, i.e. `min(max(x, lo), hi)`. -/
noncomputable def np_clip (x lo hi : ℝ) : ℝ := min (max x lo) hi

/-- NumPy `np.random.uniform(lo, hi)` expressed through the unit-interval
draw `u` the global generator produces: `lo + u * (hi - lo)`. -/
noncomputable def np_uniform (lo hi u : ℝ) : ℝ := lo + u * (hi - lo)

/-- Python `max` / pandas `Series.max` over a nonempty list (0 on `[]`,
a case no claim exercises). -/
noncomputable def maximo : List ℝ → ℝ
  | [] => 0
  | [x] => x
  | x :: y :: xs => max x (maximo (y :: xs))

/-- One particle of the swarm: the rows the parallel arrays
`self.particulas[i]`, `self.velocidades[i]`, `self.mejores_locales[i]`,
`self.mejores_puntajes_locales[i]` hold at one index `i`. -/
structure Particula where
  posicion : List ℝ
  velocidad : List ℝ
  mejor_local : List ℝ
  mejor_puntaje_local : ℝ

/-- State of a constructed `PSOOptimizer` object. -/
structure PSOState where
  n_sensores : ℕ
  n_particulas : ℕ
  max_iter : ℤ
  lat_min : ℝ
  lat_max : ℝ
  lon_min : ℝ
  lon_max : ℝ
  enjambre : List Particula
  mejor_global : List ℝ
  mejor_puntaje_global : ℝ
  historial_puntajes : List ℝ

/-- Inner loop of `_inicializar_particulas`: one particle's flat
`[lat1, lon1, ..., latN, lonN]` vector, drawing two stream values per
sensor. -/
noncomputable def inicializar_particula (lat_min lat_max lon_min lon_max : ℝ)
    (g : ℕ → ℝ) (k : ℕ) : ℕ → List ℝ
  | 0 => []
  | n + 1 =>
    np_uniform lat_min lat_max (g k) :: np_uniform lon_min lon_max (g (k + 1))
      :: inicializar_particula lat_min lat_max lon_min lon_max g (k + 2) n

/-- Method `_inicializar_particulas`: `n_particulas` random particles. -/
noncomputable def inicializar_particulas (lat_min lat_max lon_min lon_max : ℝ)
    (n_sensores : ℕ) (g : ℕ → ℝ) (k : ℕ) : ℕ → List (List ℝ)
  | 0 => []
  | m + 1 =>
    inicializar_particula lat_min lat_max lon_min lon_max g k n_sensores
      :: inicializar_particulas lat_min lat_max lon_min lon_max n_sensores g
        (k + 2 * n_sensores) m

/-- One row of `_inicializar_velocidades`:
`np.random.uniform(-0.001, 0.001, self.n_sensores * 2)`. -/
noncomputable def inicializar_velocidad (g : ℕ → ℝ) (k : ℕ) : ℕ → List ℝ
  | 0 => []
  | j + 1 => np_uniform (-0.001) 0.001 (g k) :: inicializar_velocidad g (k + 1) j

/-- Method `_inicializar_velocidades`. -/
noncomputable def inicializar_velocidades (n_sensores : ℕ) (g : ℕ → ℝ)
    (k : ℕ) : ℕ → List (List ℝ)
  | 0 => []
  | m + 1 =>
    inicializar_velocidad g k (2 * n_sensores)
      :: inicializar_velocidades n_sensores g (k + 2 * n_sensores) m

/-- Method `_formatear_sensores`: the slices `particula[i:i+2]` for even
`i`; an odd-length vector ends with a one-element slice, exactly as the
Python slicing produces. -/
def formatear_sensores : List ℝ → List (List ℝ)
  | [] => []
  | [a] => [[a]]
  | a :: b :: resto => [a, b] :: formatear_sensores resto

/-- Method `_evaluar_particula`. -/
noncomputable def evaluar_particula (datos : List SamplePoint)
    (particula : List ℝ) : Option ℝ :=
  funcion_objetivo (formatear_sensores particula) datos

/-- List comprehension
`[self._evaluar_particula(p) for p in self.particulas]` of
`_inicializar_enjambre`; `none` when some evaluation raises. -/
noncomputable def evaluar_lista (datos : List SamplePoint) :
    List (List ℝ) → Option (List ℝ)
  | [] => some []
  | p :: resto => do
    let s ← evaluar_particula datos p
    let ss ← evaluar_lista datos resto
    some (s :: ss)

open Classical in
/-- NumPy `np.argmax`: index of the first maximal element (the scan keeps
the earlier index unless a strictly larger element appears).  `np.argmax`
of an empty array raises; the embedding returns 0 there, a case no claim
exercises. -/
noncomputable def np_argmax : List ℝ → ℕ
  | [] => 0
  | [_] => 0
  | x :: y :: xs =>
    let j := np_argmax (y :: xs)
    if x < (y :: xs).getD j 0 then j + 1 else 0

/-- Assembly of the parallel arrays `particulas`, `velocidades`,
`mejores_puntajes_locales` into the per-particle records, with
`mejores_locales = particulas.copy()`. -/
def crear_enjambre : List (List ℝ) → List (List ℝ) → List ℝ → List Particula
  | p :: ps, v :: vs, s :: ss =>
    { posicion := p, velocidad := v, mejor_local := p, mejor_puntaje_local := s }
      :: crear_enjambre ps vs ss
  | _, _, _ => []

/-- Constructor `PSOOptimizer.__init__` together with
`_inicializar_enjambre`: derives the domain bounds from the dataset
extrema, draws the initial swarm from the ambient generator (positions
first, then velocities), evaluates every initial particle and seeds the
global best by `np.argmax`.  No input validation of any kind is
performed.  `none` embeds a constructor run that raises while evaluating
the initial particles. -/
noncomputable def pso_init (datos : List SamplePoint) (n_sensores n_particulas : ℕ)
    (max_iter : ℤ) (g : ℕ → ℝ) (k : ℕ) : Option PSOState :=
  let lat_min := minimo (datos.map (fun p => p.latitud))
  let lat_max := maximo (datos.map (fun p => p.latitud))
  let lon_min := minimo (datos.map (fun p => p.longitud))
  let lon_max := maximo (datos.map (fun p => p.longitud))
  let particulas :=
    inicializar_particulas lat_min lat_max lon_min lon_max n_sensores g k n_particulas
  let velocidades :=
    inicializar_velocidades n_sensores g (k + 2 * n_sensores * n_particulas) n_particulas
  (evaluar_lista datos particulas).map (fun puntajes =>
    let mejor_idx := np_argmax puntajes
    { n_sensores := n_sensores
      n_particulas := n_particulas
      max_iter := max_iter
      lat_min := lat_min
      lat_max := lat_max
      lon_min := lon_min
      lon_max := lon_max
      enjambre := crear_enjambre particulas velocidades puntajes
      mejor_global := particulas.getD mejor_idx []
      mejor_puntaje_global := puntajes.getD mejor_idx 0
      historial_puntajes := [] })

/-- Method `_actualizar_mejores_posiciones`, recursing over the swarm in
index order while threading the global best (the Python loop mutates
`self.mejor_global` inside the loop, so later particles compare against
the updated value).  Both updates use the strict comparison
`puntaje_actual > stored`. -/
noncomputable def actualizar_mejores_posiciones (datos : List SamplePoint) :
    List Particula → List ℝ → ℝ → Option (List Particula × List ℝ × ℝ)
  | [], mejor_global, mejor_puntaje_global =>
    some ([], mejor_global, mejor_puntaje_global)
  | part :: resto, mejor_global, mejor_puntaje_global => do
    let puntaje_actual ← evaluar_particula datos part.posicion
    let part' :=
      if part.mejor_puntaje_local < puntaje_actual then
        { part with mejor_local := part.posicion, mejor_puntaje_local := puntaje_actual }
      else part
    let mg := if mejor_puntaje_global < puntaje_actual then part.posicion else mejor_global
    let mp := if mejor_puntaje_global < puntaje_actual then puntaje_actual else mejor_puntaje_global
    let resultado ← actualizar_mejores_posiciones datos resto mg mp
    some (part' :: resultado.1, resultado.2.1, resultado.2.2)

/-- Elementwise velocity update of `_actualizar_velocidades_posiciones`:
`np.clip(w*v + c1*r1*(mejor_local - x) + c2*r2*(mejor_global - x), -vel_max, vel_max)`. -/
noncomputable def nueva_velocidad (r1 r2 : ℝ) :
    List ℝ → List ℝ → List ℝ → List ℝ → List ℝ
  | v :: vs, x :: xs, m :: ms, b :: bs =>
    np_clip (inercia * v + cognitivo * r1 * (m - x) + social * r2 * (b - x))
        (-velocidad_maxima) velocidad_maxima
      :: nueva_velocidad r1 r2 vs xs ms bs
  | _, _, _, _ => []

/-- Method `_aplicar_restricciones`: clips even components (latitudes) to
`[lat_min, lat_max]` and odd components (longitudes) to
`[lon_min, lon_max]`, two at a time exactly as the `range(0, len, 2)`
loop does. -/
noncomputable def aplicar_restricciones (lat_min lat_max lon_min lon_max : ℝ) :
    List ℝ → List ℝ
  | a :: b :: resto =>
    np_clip a lat_min lat_max :: np_clip b lon_min lon_max
      :: aplicar_restricciones lat_min lat_max lon_min lon_max resto
  | l => l

/-- Method `_actualizar_velocidades_posiciones`: per particle, two draws
`r1, r2 = np.random.random(2)` shared across all components, then the
velocity update, the position update `x += v` and the geographic clamp. -/
noncomputable def actualizar_velocidades_posiciones
    (lat_min lat_max lon_min lon_max : ℝ) (mejor_global : List ℝ)
    (g : ℕ → ℝ) (k : ℕ) : List Particula → List Particula
  | [] => []
  | part :: resto =>
    let r1 := g k
    let r2 := g (k + 1)
    let velocidad' :=
      nueva_velocidad r1 r2 part.velocidad part.posicion part.mejor_local mejor_global
    let posicion' := aplicar_restricciones lat_min lat_max lon_min lon_max
      (List.zipWith (fun x v => x + v) part.posicion velocidad')
    { part with posicion := posicion', velocidad := velocidad' }
      :: actualizar_velocidades_posiciones lat_min lat_max lon_min lon_max
        mejor_global g (k + 2) resto

/-- One pass of the `for iteracion in range(self.max_iter)` body of
`optimizar`: update the bests, move the particles, append the (updated)
global best score to `self.historial_puntajes`. -/
noncomputable def iteracion (datos : List SamplePoint) (g : ℕ → ℝ) (k : ℕ)
    (st : PSOState) : Option PSOState :=
  (actualizar_mejores_posiciones datos st.enjambre st.mejor_global
      st.mejor_puntaje_global).map
    (fun resultado =>
      { st with
        enjambre := actualizar_velocidades_posiciones st.lat_min st.lat_max
          st.lon_min st.lon_max resultado.2.1 g k resultado.1
        mejor_global := resultado.2.1
        mejor_puntaje_global := resultado.2.2
        historial_puntajes := st.historial_puntajes ++ [resultado.2.2] })

/-- Iteration loop of `optimizar`, run a fixed number of times with no
other exit; each pass consumes `2 * n_particulas` draws. -/
noncomputable def optimizar_bucle (datos : List SamplePoint) (g : ℕ → ℝ) :
    ℕ → ℕ → PSOState → Option PSOState
  | 0, _, st => some st
  | t + 1, k, st => do
    let st' ← iteracion datos g k st
    optimizar_bucle datos g t (k + 2 * st.enjambre.length) st'

/-- Method `optimizar`: runs the loop `range(self.max_iter)` times (empty
for a negative `max_iter`, exactly as Python `range`) and returns
`(self._formatear_sensores(self.mejor_global), self.mejor_puntaje_global)`. -/
noncomputable def optimizar (datos : List SamplePoint) (g : ℕ → ℝ) (k : ℕ)
    (st : PSOState) : Option (List (List ℝ) × ℝ) :=
  (optimizar_bucle datos g (max 0 st.max_iter).toNat k st).map
    (fun stf => (formatear_sensores stf.mejor_global, stf.mejor_puntaje_global))

/-- One full client call `PSOOptimizer(datos, N, M, T).optimizar()` against
the ambient NumPy global generator, which sits at offset `k` of the
stream `g` when the call starts (no seed parameter exists anywhere in the
program).  Returns the call's result together with the generator offset
after the call: construction consumes `4·N·M` draws and each of the
`max(0, T)` iterations `2·M` more. -/
noncomputable def ejecutar (datos : List SamplePoint) (n_sensores n_particulas : ℕ)
    (max_iter : ℤ) (g : ℕ → ℝ) (k : ℕ) : Option (List (List ℝ) × ℝ) × ℕ :=
  let k' := k + 4 * n_sensores * n_particulas
  let iteraciones := (max 0 max_iter).toNat
  match pso_init datos n_sensores n_particulas max_iter g k with
  | none => (none, k')
  | some st => (optimizar datos g k' st, k' + 2 * n_particulas * iteraciones)

/-- Modelled from the spec claim on coverage: per-point credit 1 within
the coverage radius, otherwise decaying linearly from 1 at
`radio_cobertura` down to 0 at `2 * radio_cobertura` (the stated
zero-crossing), floored at 0.  Written for comparison against
`credito_cobertura`, the formula the code computes. -/
noncomputable def credito_cobertura_afirmado (ubicaciones_sensores : List (List ℝ))
    (p : SamplePoint) : ℝ :=
  let dist_minima :=
    minimo (ubicaciones_sensores.map (calcular_distancia (punto_coords p)))
  if dist_minima ≤ radio_cobertura then 1
  else max 0 ((2 * radio_cobertura - dist_minima)
    / (2 * radio_cobertura - radio_cobertura))

/-- Modelled from the spec claim on coverage: arithmetic mean of the
claimed per-point credits over all sample points. -/
noncomputable def cobertura_afirmada (ubicaciones_sensores : List (List ℝ))
    (datos : List SamplePoint) : ℝ :=
  ((datos.map (credito_cobertura_afirmado ubicaciones_sensores)).sum)
    / (datos.length : ℝ)

/-- Amended claim formula for coverage: per-point credit 1 within the
coverage radius, otherwise decaying linearly from 1 at `radio_cobertura`
down to 0 at `3 * radio_cobertura`, floored at 0. -/
noncomputable def credito_cobertura_enmendado (ubicaciones_sensores : List (List ℝ))
    (p : SamplePoint) : ℝ :=
  let dist_minima :=
    minimo (ubicaciones_sensores.map (calcular_distancia (punto_coords p)))
  if dist_minima ≤ radio_cobertura then 1
  else max 0 ((3 * radio_cobertura - dist_minima)
    / (3 * radio_cobertura - radio_cobertura))

/-- Amended claim formula for coverage: arithmetic mean of the amended
per-point credits over all sample points. -/
noncomputable def cobertura_enmendada (ubicaciones_sensores : List (List ℝ))
    (datos : List SamplePoint) : ℝ :=
  ((datos.map (credito_cobertura_enmendado ubicaciones_sensores)).sum)
    / (datos.length : ℝ)

/-- All coordinates of a flat `[lat1, lon1, ...]` position vector lie in
the geographic domain: reading the vector two components at a time (as
`_aplicar_restricciones` does), every even component lies within
`[lat_min, lat_max]` and every odd component within `[lon_min, lon_max]`. -/
def en_limites (lat_min lat_max lon_min lon_max : ℝ) : List ℝ → Prop
  | [] => True
  | [a] => lat_min ≤ a ∧ a ≤ lat_max
  | a :: b :: resto =>
    (lat_min ≤ a ∧ a ≤ lat_max) ∧ (lon_min ≤ b ∧ b ≤ lon_max)
      ∧ en_limites lat_min lat_max lon_min lon_max resto

/-- Structural run invariant: every particle's position, velocity and
personal-best vectors have length `2 * N`, and the global best either has
length `2 * N` or the swarm is empty (then the global best is the
out-of-range `np.argmax` placeholder `[]`). -/
def longitudes_ok (N : ℕ) (st : PSOState) : Prop :=
  (∀ part ∈ st.enjambre, part.posicion.length = 2 * N ∧
    part.velocidad.length = 2 * N ∧ part.mejor_local.length = 2 * N) ∧
  (st.mejor_global.length = 2 * N ∨ (st.enjambre = [] ∧ st.mejor_global = []))

/-- Geometric run invariant: every particle position and the global best
position lie within the domain bounds recorded in the state. -/
def posiciones_en_limites (st : PSOState) : Prop :=
  (∀ part ∈ st.enjambre,
    en_limites st.lat_min st.lat_max st.lon_min st.lon_max part.posicion) ∧
  en_limites st.lat_min st.lat_max st.lon_min st.lon_max st.mejor_global

/-! Concrete inputs shared by the evaluation lemmas below: one sample
point of each crop, all at the origin, with unremarkable humidity and
salinity, and a single sensor at the origin. -/

/-- Maíz sample point at the origin. -/
def punto_maiz : SamplePoint :=
  { latitud := 0, longitud := 0, cultivo := Cultivo.maiz
    humedad := 20, salinidad := 1, elevacion := 0, temperatura := 25 }

/-- Tomate sample point at the origin. -/
def punto_tomate : SamplePoint :=
  { latitud := 0, longitud := 0, cultivo := Cultivo.tomate
    humedad := 20, salinidad := 1, elevacion := 0, temperatura := 25 }

/-- Chile sample point at the origin. -/
def punto_chile : SamplePoint :=
  { latitud := 0, longitud := 0, cultivo := Cultivo.chile
    humedad := 20, salinidad := 1, elevacion := 0, temperatura := 25 }

/-- Three-point dataset containing every crop once, all at the origin. -/
def datos_origen : List SamplePoint := [punto_maiz, punto_tomate, punto_chile]

/-- Maíz sample point at latitude `2 * radio_cobertura = 0.024`, longitude 0:
its distance to a sensor at the origin is exactly twice the coverage
radius. -/
noncomputable def punto_lejano : SamplePoint :=
  { latitud := 0.024, longitud := 0, cultivo := Cultivo.maiz
    humedad := 20, salinidad := 1, elevacion := 0, temperatura := 25 }

/-- Maíz sample point at latitude 1, longitude 0. -/
def punto_maiz_uno : SamplePoint :=
  { latitud := 1, longitud := 0, cultivo := Cultivo.maiz
    humedad := 20, salinidad := 1, elevacion := 0, temperatura := 25 }

/-- Dataset with all three crops whose latitude extrema are 0 and 1 and
whose longitude extrema are both 0. -/
def datos_span : List SamplePoint := [punto_maiz_uno, punto_tomate, punto_chile]

/-- Random stream all of whose draws are 0. -/
def flujo_cero : ℕ → ℝ := fun _ => 0

/-- Random stream drawing `n / 8` at offset `n` (so the draws consumed by
two back-to-back runs differ). -/
noncomputable def flujo_octavos : ℕ → ℝ := fun n => n / 8

/-- Optimizer state `PSOOptimizer.__init__` builds from `datos_origen`
with one sensor, one particle and the all-zero stream; the iteration
budget is stored unchecked. -/
noncomputable def estado_testigo (max_iter : ℤ) : PSOState :=
  { n_sensores := 1
    n_particulas := 1
    max_iter := max_iter
    lat_min := 0
    lat_max := 0
    lon_min := 0
    lon_max := 0
    enjambre := [{ posicion := [0, 0], velocidad := [-0.001, -0.001]
                   mejor_local := [0, 0], mejor_puntaje_local := 5 / 6 }]
    mejor_global := [0, 0]
    mejor_puntaje_global := 5 / 6
    historial_puntajes := [] }

/-- State of `estado_testigo 1` after its single iteration: the velocity
shrinks by the inertia factor and the position stays clamped at the
origin, the personal and global bests are unchanged, and one history
entry is appended. -/
noncomputable def estado_testigo_final : PSOState :=
  { n_sensores := 1
    n_particulas := 1
    max_iter := 1
    lat_min := 0
    lat_max := 0
    lon_min := 0
    lon_max := 0
    enjambre := [{ posicion := [0, 0], velocidad := [-(7 / 10000), -(7 / 10000)]
                   mejor_local := [0, 0], mejor_puntaje_local := 5 / 6 }]
    mejor_global := [0, 0]
    mejor_puntaje_global := 5 / 6
    historial_puntajes := [5 / 6] }

lemma calcular_distancia_origen : calcular_distancia [(0 : ℝ), 0] [0, 0] = 0 := by
  simp [calcular_distancia]

lemma esta_cubierto_origen (r : ℝ) (hr : 0 ≤ r) (p : SamplePoint)
    (hp : punto_coords p = [0, 0]) : esta_cubierto [[(0 : ℝ), 0]] r p := by
  refine ⟨[0, 0], by simp, ?_⟩
  rw [hp, calcular_distancia_origen]
  exact hr

lemma conteo_cubierto_origen_uno (r : ℝ) (hr : 0 ≤ r) (p : SamplePoint)
    (hp : punto_coords p = [0, 0]) : conteo_cubierto [[(0 : ℝ), 0]] r [p] = 1 := by
  simp [conteo_cubierto, esta_cubierto_origen r hr p hp]

lemma credito_cobertura_origen (p : SamplePoint) (hp : punto_coords p = [0, 0]) :
    credito_cobertura [[(0 : ℝ), 0]] p = 1 := by
  rw [credito_cobertura, hp]
  rw [show ([[(0 : ℝ), 0]].map (calcular_distancia [0, 0])) = [0] by
    simp [calcular_distancia_origen]]
  rw [show minimo [(0 : ℝ)] = 0 from rfl]
  rw [if_pos (by norm_num [radio_cobertura])]

lemma cobertura_origen :
    calcular_cobertura_variabilidad [[(0 : ℝ), 0]] datos_origen = 1 := by
  have hm := credito_cobertura_origen punto_maiz rfl
  have ht := credito_cobertura_origen punto_tomate rfl
  have hc := credito_cobertura_origen punto_chile rfl
  rw [calcular_cobertura_variabilidad]
  simp [datos_origen, hm, ht, hc]
  norm_num

lemma puntaje_cultivo_origen (c : Cultivo) :
    puntaje_cultivo [[(0 : ℝ), 0]] datos_origen c = some (1 / 3) := by
  have habs : |(1 : ℝ) / 3 - 1 / 1| = 2 / 3 := by
    rw [abs_of_nonpos (by norm_num)]
    norm_num
  cases c
  case maiz =>
    have h2 : datos_origen.filter (fun p => p.cultivo == Cultivo.maiz) = [punto_maiz] := rfl
    rw [puntaje_cultivo, if_neg (by norm_num [show conteo_total datos_origen Cultivo.maiz = 1 from rfl])]
    simp only [h2, show conteo_total datos_origen Cultivo.maiz = 1 from rfl,
      show (datos_origen.length : ℝ) = 3 from by norm_num [datos_origen],
      conteo_cubierto_origen_uno radio_influencia (by norm_num [radio_influencia]) punto_maiz rfl]
    norm_num [habs, abs_of_nonneg]
  case tomate =>
    have h2 : datos_origen.filter (fun p => p.cultivo == Cultivo.tomate) = [punto_tomate] := rfl
    rw [puntaje_cultivo, if_neg (by norm_num [show conteo_total datos_origen Cultivo.tomate = 1 from rfl])]
    simp only [h2, show conteo_total datos_origen Cultivo.tomate = 1 from rfl,
      show (datos_origen.length : ℝ) = 3 from by norm_num [datos_origen],
      conteo_cubierto_origen_uno radio_influencia (by norm_num [radio_influencia]) punto_tomate rfl]
    norm_num [habs, abs_of_nonneg]
  case chile =>
    have h2 : datos_origen.filter (fun p => p.cultivo == Cultivo.chile) = [punto_chile] := rfl
    rw [puntaje_cultivo, if_neg (by norm_num [show conteo_total datos_origen Cultivo.chile = 1 from rfl])]
    simp only [h2, show conteo_total datos_origen Cultivo.chile = 1 from rfl,
      show (datos_origen.length : ℝ) = 3 from by norm_num [datos_origen],
      conteo_cubierto_origen_uno radio_influencia (by norm_num [radio_influencia]) punto_chile rfl]
    norm_num [habs, abs_of_nonneg]

lemma balance_origen :
    balance_entre_cultivos [[(0 : ℝ), 0]] datos_origen = some (1 / 3) := by
  rw [balance_entre_cultivos]
  simp [puntaje_cultivo_origen]
  norm_num

lemma zonas_criticas_origen : zonas_criticas datos_origen = [] := by
  have hm : ¬ es_critica punto_maiz := by norm_num [es_critica, punto_maiz]
  have ht : ¬ es_critica punto_tomate := by norm_num [es_critica, punto_tomate]
  have hc : ¬ es_critica punto_chile := by norm_num [es_critica, punto_chile]
  simp [zonas_criticas, datos_origen, List.filter, hm, ht, hc]

lemma cubrir_origen : cubrir_zonas_problematicas [[(0 : ℝ), 0]] datos_origen = 1 := by
  simp [cubrir_zonas_problematicas, zonas_criticas_origen]

lemma dispersion_origen : optimizar_distancias [[(0 : ℝ), 0]] = 1 := by
  simp [optimizar_distancias]

lemma funcion_objetivo_origen :
    funcion_objetivo [[(0 : ℝ), 0]] datos_origen = some (5 / 6) := by
  rw [funcion_objetivo]
  simp only [balance_origen, cobertura_origen, cubrir_origen, dispersion_origen,
    Option.map_some]
  norm_num [peso_cobertura, peso_balance_cultivos, peso_zonas_criticas, peso_distribucion]

lemma evaluar_origen : evaluar_particula datos_origen [(0 : ℝ), 0] = some (5 / 6) := by
  rw [evaluar_particula, show formatear_sensores [(0 : ℝ), 0] = [[0, 0]] from rfl]
  exact funcion_objetivo_origen

lemma distancia_punto_lejano :
    calcular_distancia (punto_coords punto_lejano) [0, 0] = 0.024 := by
  rw [show punto_coords punto_lejano = [(0.024 : ℝ), 0] from rfl, calcular_distancia]
  simp only [List.getD_cons_zero, List.getD_cons_succ]
  rw [show ((0.024 : ℝ) - 0) ^ 2 + ((0 : ℝ) - 0) ^ 2 = 0.024 ^ 2 by norm_num]
  exact Real.sqrt_sq (by norm_num)

lemma credito_punto_lejano :
    credito_cobertura [[(0 : ℝ), 0]] punto_lejano = 1 / 2 := by
  simp only [credito_cobertura, List.map_cons, List.map_nil, distancia_punto_lejano]
  rw [show minimo [(0.024 : ℝ)] = 0.024 from rfl]
  rw [if_neg (by norm_num [radio_cobertura])]
  rw [show (1 : ℝ) - (0.024 - radio_cobertura) / (2 * radio_cobertura) = 1 / 2 by
    norm_num [radio_cobertura]]
  norm_num

lemma credito_afirmado_punto_lejano :
    credito_cobertura_afirmado [[(0 : ℝ), 0]] punto_lejano = 0 := by
  simp only [credito_cobertura_afirmado, List.map_cons, List.map_nil,
    distancia_punto_lejano]
  rw [show minimo [(0.024 : ℝ)] = 0.024 from rfl]
  rw [if_neg (by norm_num [radio_cobertura])]
  rw [show (2 * radio_cobertura - 0.024) / (2 * radio_cobertura - radio_cobertura)
      = (0 : ℝ) by norm_num [radio_cobertura]]
  norm_num

lemma credito_enmendado_eq (u : List (List ℝ)) (p : SamplePoint) :
    credito_cobertura u p = credito_cobertura_enmendado u p := by
  simp only [credito_cobertura, credito_cobertura_enmendado]
  by_cases h : minimo (u.map (calcular_distancia (punto_coords p))) ≤ radio_cobertura
  · rw [if_pos h, if_pos h]
  · rw [if_neg h, if_neg h]
    congr 1
    have h2 : (2 : ℝ) * radio_cobertura ≠ 0 := by norm_num [radio_cobertura]
    have h3 : (3 : ℝ) * radio_cobertura - radio_cobertura ≠ 0 := by
      norm_num [radio_cobertura]
    field_simp
    ring

/-- C1 counterexample: a sample point at distance exactly
`2 * radio_cobertura` from the only sensor.  The claimed formula (credit
reaching 0 at `2 * radio_cobertura`) yields coverage 0, but the code's
coverage sub-score is 1/2 — the code's credit only reaches 0 at
`3 * radio_cobertura`. -/
theorem c1_contraejemplo :
    calcular_cobertura_variabilidad [[(0 : ℝ), 0]] [punto_lejano] = 1 / 2 ∧
    cobertura_afirmada [[(0 : ℝ), 0]] [punto_lejano] = 0 := by
  constructor
  · rw [calcular_cobertura_variabilidad]
    simp [credito_punto_lejano]
  · rw [cobertura_afirmada]
    simp [credito_afirmado_punto_lejano]

/-- C1 (amended): for every dataset point, the code's coverage credit is 1
within `radio_cobertura` and otherwise decays linearly from 1 at
`radio_cobertura` to 0 at `3 * radio_cobertura` (not `2 * radio_cobertura`),
floored at 0; the coverage sub-score is the arithmetic mean of these
per-point credits over all sample points. -/
theorem c1_teorema (ubicaciones_sensores : List (List ℝ))
    (datos : List SamplePoint) :
    calcular_cobertura_variabilidad ubicaciones_sensores datos
      = cobertura_enmendada ubicaciones_sensores datos := by
  rw [calcular_cobertura_variabilidad, cobertura_enmendada,
    funext (credito_enmendado_eq ubicaciones_sensores)]

/-- C2: the code does not guard the zero-member-crop case.  On a dataset
with no Chile point, `balance_entre_cultivos` reaches the unguarded
`conteo_total[cultivo]` lookup / `cobertura_real` division for Chile and
raises (embedded as `none`), and the error propagates through the public
`funcion_objetivo`; the claimed explicit guard does not exist. -/
theorem c2_teorema :
    balance_entre_cultivos [[(0 : ℝ), 0]] [punto_maiz, punto_tomate] = none ∧
    funcion_objetivo [[(0 : ℝ), 0]] [punto_maiz, punto_tomate] = none := by
  have hm : conteo_total [punto_maiz, punto_tomate] Cultivo.maiz = 1 := rfl
  have ht : conteo_total [punto_maiz, punto_tomate] Cultivo.tomate = 1 := rfl
  have hc : conteo_total [punto_maiz, punto_tomate] Cultivo.chile = 0 := rfl
  have hbal : balance_entre_cultivos [[(0 : ℝ), 0]] [punto_maiz, punto_tomate] = none := by
    simp only [balance_entre_cultivos, puntaje_cultivo, hm, ht, hc]
    norm_num
  refine ⟨hbal, ?_⟩
  rw [funcion_objetivo, hbal]
  rfl

lemma formatear_sensores_length : ∀ (l : List ℝ) (N : ℕ), l.length = 2 * N →
    (formatear_sensores l).length = N
  | [], N, h => by
    simp only [List.length_nil] at h
    simp [formatear_sensores]
    omega
  | [a], N, h => by
    simp only [List.length_cons, List.length_nil] at h
    simp [formatear_sensores]
    omega
  | a :: b :: resto, N, h => by
    simp only [List.length_cons] at h
    obtain ⟨n, rfl⟩ : ∃ n, N = n + 1 := ⟨N - 1, by omega⟩
    have hr : resto.length = 2 * n := by omega
    simp [formatear_sensores, formatear_sensores_length resto n hr]

lemma formatear_sensores_flatten : ∀ l : List ℝ, (formatear_sensores l).flatten = l
  | [] => rfl
  | [a] => rfl
  | a :: b :: resto => by
    simp [formatear_sensores, formatear_sensores_flatten resto]

lemma suma_en_unidad (l : List ℝ) (h : ∀ x ∈ l, 0 ≤ x ∧ x ≤ 1) :
    0 ≤ l.sum ∧ l.sum ≤ l.length := by
  induction l with
  | nil => simp
  | cons a t ih =>
    have ha := h a (by simp)
    have ht := ih (fun x hx => h x (by simp [hx]))
    simp only [List.sum_cons, List.length_cons]
    push_cast
    exact ⟨by linarith [ha.1, ht.1], by linarith [ha.2, ht.2]⟩

lemma media_en_unidad (l : List ℝ) (hne : l ≠ []) (h : ∀ x ∈ l, 0 ≤ x ∧ x ≤ 1) :
    0 ≤ l.sum / l.length ∧ l.sum / l.length ≤ 1 := by
  have hlen : (0 : ℝ) < l.length := by
    have := List.length_pos.mpr hne
    exact_mod_cast this
  obtain ⟨h0, h1⟩ := suma_en_unidad l h
  refine ⟨by positivity, ?_⟩
  rw [div_le_one hlen]
  linarith

lemma credito_cobertura_unidad (u : List (List ℝ)) (p : SamplePoint) :
    0 ≤ credito_cobertura u p ∧ credito_cobertura u p ≤ 1 := by
  rw [credito_cobertura]
  by_cases h : minimo (u.map (calcular_distancia (punto_coords p))) ≤ radio_cobertura
  · rw [if_pos h]
    norm_num
  · rw [if_neg h]
    push_neg at h
    refine ⟨le_max_left 0 _, max_le (by norm_num) ?_⟩
    have hr : (0 : ℝ) < radio_cobertura := by norm_num [radio_cobertura]
    have hnum : 0 ≤ minimo (u.map (calcular_distancia (punto_coords p))) - radio_cobertura := by
      linarith
    have := div_nonneg hnum (by linarith : (0 : ℝ) ≤ 2 * radio_cobertura)
    linarith

lemma cobertura_unidad (u : List (List ℝ)) (datos : List SamplePoint)
    (hd : datos ≠ []) :
    0 ≤ calcular_cobertura_variabilidad u datos ∧
      calcular_cobertura_variabilidad u datos ≤ 1 := by
  rw [calcular_cobertura_variabilidad]
  have hmem : ∀ x ∈ datos.map (credito_cobertura u), 0 ≤ x ∧ x ≤ 1 := by
    intro x hx
    obtain ⟨p, _, rfl⟩ := List.mem_map.mp hx
    exact credito_cobertura_unidad u p
  have hne : datos.map (credito_cobertura u) ≠ [] := by simp [hd]
  have := media_en_unidad _ hne hmem
  rwa [List.length_map] at this

lemma conteo_cubierto_le (u : List (List ℝ)) (r : ℝ) :
    ∀ l : List SamplePoint, conteo_cubierto u r l ≤ l.length
  | [] => Nat.le_refl 0
  | p :: resto => by
    rw [conteo_cubierto]
    simp only [List.length_cons]
    have := conteo_cubierto_le u r resto
    split <;> omega

lemma puntaje_cultivo_unidad (u : List (List ℝ)) (datos : List SamplePoint)
    (c : Cultivo) (v : ℝ) (h : puntaje_cultivo u datos c = some v) :
    0 ≤ v ∧ v ≤ 1 := by
  rw [puntaje_cultivo] at h
  by_cases h0 : conteo_total datos c = 0
  · rw [if_pos h0] at h
    exact absurd h (by simp)
  · rw [if_neg h0] at h
    simp only [Option.some.injEq] at h
    have hnc : 0 < conteo_total datos c := Nat.pos_of_ne_zero h0
    have hn : conteo_total datos c ≤ datos.length := List.length_filter_le _ _
    have hlen : 0 < datos.length := lt_of_lt_of_le hnc hn
    have hncR : (0 : ℝ) < (conteo_total datos c : ℝ) := by exact_mod_cast hnc
    have hlenR : (0 : ℝ) < (datos.length : ℝ) := by exact_mod_cast hlen
    have hideal1 : (0 : ℝ) ≤ (conteo_total datos c : ℝ) / (datos.length : ℝ) := by
      positivity
    have hideal2 : (conteo_total datos c : ℝ) / (datos.length : ℝ) ≤ 1 := by
      rw [div_le_one hlenR]
      exact_mod_cast hn
    have hcub : conteo_cubierto u radio_influencia
        (datos.filter (fun p => p.cultivo == c)) ≤ conteo_total datos c :=
      conteo_cubierto_le u radio_influencia _
    have hreal1 : (0 : ℝ) ≤ (conteo_cubierto u radio_influencia
        (datos.filter (fun p => p.cultivo == c)) : ℝ) / (conteo_total datos c : ℝ) := by
      positivity
    have hreal2 : (conteo_cubierto u radio_influencia
        (datos.filter (fun p => p.cultivo == c)) : ℝ) / (conteo_total datos c : ℝ) ≤ 1 := by
      rw [div_le_one hncR]
      exact_mod_cast hcub
    have habs : |(conteo_total datos c : ℝ) / (datos.length : ℝ)
        - (conteo_cubierto u radio_influencia
            (datos.filter (fun p => p.cultivo == c)) : ℝ) / (conteo_total datos c : ℝ)| ≤ 1 :=
      abs_sub_le_iff.mpr ⟨by linarith, by linarith⟩
    subst h
    exact ⟨le_min (by linarith) (by norm_num), min_le_right _ _⟩

lemma balance_descomposicion (u : List (List ℝ)) (datos : List SamplePoint)
    (v : ℝ) (h : balance_entre_cultivos u datos = some v) :
    ∃ pm pt pc, puntaje_cultivo u datos Cultivo.maiz = some pm ∧
      puntaje_cultivo u datos Cultivo.tomate = some pt ∧
      puntaje_cultivo u datos Cultivo.chile = some pc ∧
      v = (pm + pt + pc) / 3 := by
  rw [balance_entre_cultivos] at h
  cases hm : puntaje_cultivo u datos Cultivo.maiz with
  | none => rw [hm] at h; exact absurd h (by simp)
  | some pm =>
    rw [hm] at h
    cases ht : puntaje_cultivo u datos Cultivo.tomate with
    | none => rw [ht] at h; exact absurd h (by simp)
    | some pt =>
      rw [ht] at h
      cases hc : puntaje_cultivo u datos Cultivo.chile with
      | none => rw [hc] at h; exact absurd h (by simp)
      | some pc =>
        rw [hc] at h
        simp at h
        exact ⟨pm, pt, pc, rfl, rfl, rfl, h.symm⟩

lemma balance_unidad (u : List (List ℝ)) (datos : List SamplePoint) (v : ℝ)
    (h : balance_entre_cultivos u datos = some v) : 0 ≤ v ∧ v ≤ 1 := by
  obtain ⟨pm, pt, pc, hm, ht, hc, rfl⟩ := balance_descomposicion u datos v h
  obtain ⟨hm1, hm2⟩ := puntaje_cultivo_unidad u datos Cultivo.maiz pm hm
  obtain ⟨ht1, ht2⟩ := puntaje_cultivo_unidad u datos Cultivo.tomate pt ht
  obtain ⟨hc1, hc2⟩ := puntaje_cultivo_unidad u datos Cultivo.chile pc hc
  constructor <;> [positivity; (rw [div_le_one (by norm_num)]; linarith)]

lemma criticas_unidad (u : List (List ℝ)) (datos : List SamplePoint) :
    0 ≤ cubrir_zonas_problematicas u datos ∧
      cubrir_zonas_problematicas u datos ≤ 1 := by
  rw [cubrir_zonas_problematicas]
  by_cases h : (zonas_criticas datos).length = 0
  · rw [if_pos h]
    norm_num
  · rw [if_neg h]
    have h1 : (0 : ℝ) < ((zonas_criticas datos).length : ℝ) := by
      exact_mod_cast Nat.pos_of_ne_zero h
    have h2 := conteo_cubierto_le u 0.01 (zonas_criticas datos)
    refine ⟨by positivity, ?_⟩
    rw [div_le_one h1]
    exact_mod_cast h2

lemma credito_dispersion_unidad (d : ℝ) :
    0 ≤ credito_dispersion d ∧ credito_dispersion d ≤ 1 := by
  rw [credito_dispersion]
  split
  · norm_num
  · refine ⟨le_max_left 0 _, max_le (by norm_num) ?_⟩
    have hd : (0 : ℝ) < distancia_ideal := by norm_num [distancia_ideal]
    have : 0 ≤ |d - distancia_ideal| / distancia_ideal := by positivity
    linarith

lemma dispersion_unidad (u : List (List ℝ)) :
    0 ≤ optimizar_distancias u ∧ optimizar_distancias u ≤ 1 := by
  rw [optimizar_distancias]
  split
  · norm_num
  · next hlen =>
    push_neg at hlen
    obtain ⟨s, t, resto, rfl⟩ : ∃ s t resto, u = s :: t :: resto := by
      match u, hlen with
      | s :: t :: resto, _ => exact ⟨s, t, resto, rfl⟩
      | [], h => simp at h
      | [x], h => simp at h
    · have hne : distancias_pares (s :: t :: resto) ≠ [] := by
        simp [distancias_pares]
      have hmem : ∀ x ∈ (distancias_pares (s :: t :: resto)).map credito_dispersion,
          0 ≤ x ∧ x ≤ 1 := by
        intro x hx
        obtain ⟨d, _, rfl⟩ := List.mem_map.mp hx
        exact credito_dispersion_unidad d
      have hne2 : (distancias_pares (s :: t :: resto)).map credito_dispersion ≠ [] := by
        simp [hne]
      have := media_en_unidad _ hne2 hmem
      rwa [List.length_map] at this

lemma funcion_objetivo_descomposicion (u : List (List ℝ)) (datos : List SamplePoint)
    (s : ℝ) (h : funcion_objetivo u datos = some s) :
    ∃ bal, balance_entre_cultivos u datos = some bal ∧
      s = peso_cobertura * calcular_cobertura_variabilidad u datos
        + peso_balance_cultivos * bal
        + peso_zonas_criticas * cubrir_zonas_problematicas u datos
        + peso_distribucion * optimizar_distancias u := by
  rw [funcion_objetivo] at h
  cases hb : balance_entre_cultivos u datos with
  | none => rw [hb] at h; exact absurd h (by simp)
  | some bal =>
    rw [hb] at h
    simp at h
    exact ⟨bal, rfl, h.symm⟩

/-- C5: for every non-empty dataset and every sensor configuration with at
least one sensor, whenever `funcion_objetivo` returns a score the score
lies in [0,1]; each of the four sub-scores lies in [0,1], and the total is
the weighted combination of the sub-scores with the default weights
0.35 / 0.25 / 0.25 / 0.15 from `CONFIG['pesos']`. -/
theorem c5_teorema (ubicaciones_sensores : List (List ℝ)) (datos : List SamplePoint)
    (s : ℝ) (hd : datos ≠ []) (hs : ubicaciones_sensores ≠ [])
    (h : funcion_objetivo ubicaciones_sensores datos = some s) :
    0 ≤ s ∧ s ≤ 1 ∧
    (0 ≤ calcular_cobertura_variabilidad ubicaciones_sensores datos ∧
      calcular_cobertura_variabilidad ubicaciones_sensores datos ≤ 1) ∧
    (∃ bal, balance_entre_cultivos ubicaciones_sensores datos = some bal ∧
      0 ≤ bal ∧ bal ≤ 1 ∧
      s = peso_cobertura * calcular_cobertura_variabilidad ubicaciones_sensores datos
        + peso_balance_cultivos * bal
        + peso_zonas_criticas * cubrir_zonas_problematicas ubicaciones_sensores datos
        + peso_distribucion * optimizar_distancias ubicaciones_sensores) ∧
    (0 ≤ cubrir_zonas_problematicas ubicaciones_sensores datos ∧
      cubrir_zonas_problematicas ubicaciones_sensores datos ≤ 1) ∧
    (0 ≤ optimizar_distancias ubicaciones_sensores ∧
      optimizar_distancias ubicaciones_sensores ≤ 1) ∧
    peso_cobertura = 0.35 ∧ peso_balance_cultivos = 0.25 ∧
    peso_zonas_criticas = 0.25 ∧ peso_distribucion = 0.15 := by
  obtain ⟨bal, hbal, hsum⟩ := funcion_objetivo_descomposicion ubicaciones_sensores datos s h
  obtain ⟨hcob1, hcob2⟩ := cobertura_unidad ubicaciones_sensores datos hd
  obtain ⟨hbal1, hbal2⟩ := balance_unidad ubicaciones_sensores datos bal hbal
  obtain ⟨hcri1, hcri2⟩ := criticas_unidad ubicaciones_sensores datos
  obtain ⟨hdis1, hdis2⟩ := dispersion_unidad ubicaciones_sensores
  have hw : s = 0.35 * calcular_cobertura_variabilidad ubicaciones_sensores datos
      + 0.25 * bal + 0.25 * cubrir_zonas_problematicas ubicaciones_sensores datos
      + 0.15 * optimizar_distancias ubicaciones_sensores := by
    rw [hsum, peso_cobertura, peso_balance_cultivos, peso_zonas_criticas, peso_distribucion]
  refine ⟨by rw [hw]; linarith, by rw [hw]; linarith, ⟨hcob1, hcob2⟩,
    ⟨bal, hbal, hbal1, hbal2, hsum⟩, ⟨hcri1, hcri2⟩, ⟨hdis1, hdis2⟩, rfl, rfl, rfl, rfl⟩

/-- C5 witness: the hypotheses and the score bound instantiated at the
three-origin-points dataset with a single sensor at the origin, where the
objective value is exactly 5/6. -/
theorem c5_testigo :
    datos_origen ≠ [] ∧ ([[(0 : ℝ), 0]] : List (List ℝ)) ≠ [] ∧
    funcion_objetivo [[(0 : ℝ), 0]] datos_origen = some (5 / 6) ∧
    0 ≤ (5 / 6 : ℝ) ∧ (5 / 6 : ℝ) ≤ 1 :=
  ⟨by simp [datos_origen], by simp, funcion_objetivo_origen,
    (c5_teorema [[(0 : ℝ), 0]] datos_origen (5 / 6) (by simp [datos_origen])
      (by simp) funcion_objetivo_origen).1,
    (c5_teorema [[(0 : ℝ), 0]] datos_origen (5 / 6) (by simp [datos_origen])
      (by simp) funcion_objetivo_origen).2.1⟩

/-- C6: in an update pass, a particle's stored personal best is replaced
exactly when its current score strictly exceeds the stored
`mejor_puntaje_local`, and the swarm's global best is replaced exactly
when the current score strictly exceeds `mejor_puntaje_global`; on
equality (and any non-greater score) both stay unchanged. -/
theorem c6_teorema (datos : List SamplePoint) (part : Particula)
    (mejor_global : List ℝ) (mejor_puntaje_global : ℝ) (s : ℝ)
    (h : evaluar_particula datos part.posicion = some s) :
    ∃ part' gb' gs',
      actualizar_mejores_posiciones datos [part] mejor_global mejor_puntaje_global
        = some ([part'], gb', gs') ∧
      (s ≤ part.mejor_puntaje_local → part' = part) ∧
      (part.mejor_puntaje_local < s →
        part' = { part with mejor_local := part.posicion, mejor_puntaje_local := s }) ∧
      (s ≤ mejor_puntaje_global → gb' = mejor_global ∧ gs' = mejor_puntaje_global) ∧
      (mejor_puntaje_global < s → gb' = part.posicion ∧ gs' = s) := by
  refine ⟨if part.mejor_puntaje_local < s then
      { part with mejor_local := part.posicion, mejor_puntaje_local := s } else part,
    if mejor_puntaje_global < s then part.posicion else mejor_global,
    if mejor_puntaje_global < s then s else mejor_puntaje_global, ?_, ?_, ?_, ?_, ?_⟩
  · simp [actualizar_mejores_posiciones, h]
  · intro hle
    rw [if_neg (not_lt.mpr hle)]
  · intro hlt
    rw [if_pos hlt]
  · intro hle
    rw [if_neg (not_lt.mpr hle), if_neg (not_lt.mpr hle)]
    exact ⟨rfl, rfl⟩
  · intro hlt
    rw [if_pos hlt, if_pos hlt]
    exact ⟨rfl, rfl⟩

/-- C6 witness: at the origin dataset the particle's current score equals
both its stored personal best and the global best (5/6), and the update
pass leaves particle, global best position and global best score all
unchanged. -/
theorem c6_testigo :
    evaluar_particula datos_origen [(0 : ℝ), 0] = some (5 / 6) ∧
    actualizar_mejores_posiciones datos_origen
        [{ posicion := [(0 : ℝ), 0], velocidad := [0, 0], mejor_local := [0, 0],
           mejor_puntaje_local := 5 / 6 }] [0, 0] (5 / 6)
      = some ([{ posicion := [(0 : ℝ), 0], velocidad := [0, 0], mejor_local := [0, 0],
                 mejor_puntaje_local := 5 / 6 }], [0, 0], 5 / 6) := by
  refine ⟨evaluar_origen, ?_⟩
  obtain ⟨part', gb', gs', heq, hpe, _, hge, _⟩ :=
    c6_teorema datos_origen
      { posicion := [(0 : ℝ), 0], velocidad := [0, 0], mejor_local := [0, 0],
        mejor_puntaje_local := 5 / 6 } [0, 0] (5 / 6) (5 / 6) evaluar_origen
  rw [heq, hpe (le_refl _), (hge (le_refl _)).1, (hge (le_refl _)).2]

lemma np_clip_mem (x lo hi : ℝ) (h : lo ≤ hi) :
    lo ≤ np_clip x lo hi ∧ np_clip x lo hi ≤ hi := by
  rw [np_clip]
  exact ⟨le_min (le_max_right x lo) h, min_le_right _ _⟩

lemma np_clip_exceso (x lo hi : ℝ) (h : lo ≤ hi) (hx : hi < x) :
    np_clip x lo hi = hi := by
  rw [np_clip, max_eq_left (le_of_lt (lt_of_le_of_lt h hx)),
    min_eq_right (le_of_lt hx)]

lemma np_uniform_mem (lo hi u : ℝ) (h : lo ≤ hi) (hu : 0 ≤ u) (hu1 : u ≤ 1) :
    lo ≤ np_uniform lo hi u ∧ np_uniform lo hi u ≤ hi := by
  rw [np_uniform]
  constructor <;> nlinarith

lemma minimo_le_maximo : ∀ l : List ℝ, l ≠ [] → minimo l ≤ maximo l
  | [x], _ => le_refl x
  | x :: y :: xs, _ => by
    rw [minimo, maximo]
    have := minimo_le_maximo (y :: xs) (by simp)
    exact le_trans (min_le_left x _) (le_max_left x _)

lemma aplicar_restricciones_length (lm lM om oM : ℝ) :
    ∀ l : List ℝ, (aplicar_restricciones lm lM om oM l).length = l.length
  | [] => by simp [aplicar_restricciones]
  | [a] => by simp [aplicar_restricciones]
  | a :: b :: resto => by
    rw [aplicar_restricciones]
    simp [aplicar_restricciones_length lm lM om oM resto]

lemma en_limites_aplicar (lm lM om oM : ℝ) (hla : lm ≤ lM) (hlo : om ≤ oM) :
    ∀ l : List ℝ, l.length % 2 = 0 →
      en_limites lm lM om oM (aplicar_restricciones lm lM om oM l)
  | [], _ => by simp [aplicar_restricciones, en_limites]
  | [a], h => by simp at h
  | a :: b :: resto, h => by
    rw [aplicar_restricciones]
    refine ⟨np_clip_mem a lm lM hla, np_clip_mem b om oM hlo, ?_⟩
    refine en_limites_aplicar lm lM om oM hla hlo resto ?_
    simp only [List.length_cons] at h
    omega

lemma en_limites_formatear (lm lM om oM : ℝ) :
    ∀ l : List ℝ, en_limites lm lM om oM l →
      ∀ s ∈ formatear_sensores l, en_limites lm lM om oM s
  | [], _, s, hs => by simp [formatear_sensores] at hs
  | [a], h, s, hs => by
    simp only [formatear_sensores, List.mem_singleton] at hs
    subst hs
    exact h
  | a :: b :: resto, h, s, hs => by
    simp only [formatear_sensores, List.mem_cons] at hs
    obtain ⟨h1, h2, h3⟩ := h
    cases hs with
    | inl hh => subst hh; exact ⟨h1, h2, trivial⟩
    | inr hh => exact en_limites_formatear lm lM om oM resto h3 s hh

lemma nueva_velocidad_length (r1 r2 : ℝ) :
    ∀ (v x m b : List ℝ), v.length = x.length → x.length = m.length →
      m.length = b.length → (nueva_velocidad r1 r2 v x m b).length = v.length
  | [], x, m, b, _, _, _ => by
    cases x <;> cases m <;> cases b <;> simp [nueva_velocidad]
  | v :: vs, [], m, b, h1, _, _ => by simp at h1
  | v :: vs, x :: xs, [], b, _, h2, _ => by simp at h2
  | v :: vs, x :: xs, m :: ms, [], _, _, h3 => by simp at h3
  | v :: vs, x :: xs, m :: ms, b :: bs, h1, h2, h3 => by
    simp only [List.length_cons] at h1 h2 h3 ⊢
    rw [nueva_velocidad]
    simp only [List.length_cons]
    rw [nueva_velocidad_length r1 r2 vs xs ms bs (by omega) (by omega) (by omega)]

lemma np_argmax_lt : ∀ l : List ℝ, l ≠ [] → np_argmax l < l.length
  | [x], _ => by simp [np_argmax]
  | x :: y :: xs, _ => by
    rw [np_argmax]
    have := np_argmax_lt (y :: xs) (by simp)
    simp only [List.length_cons] at this ⊢
    split
    · omega
    · omega

lemma getD_mem_de_lt {α : Type} [Inhabited α] (l : List α) (i : ℕ) (d : α)
    (h : i < l.length) : l.getD i d ∈ l := by
  rw [List.getD_eq_getElem l d h]
  exact List.getElem_mem h

lemma crear_enjambre_mem :
    ∀ (ps vs : List (List ℝ)) (ss : List ℝ) (part : Particula),
      part ∈ crear_enjambre ps vs ss →
      part.posicion ∈ ps ∧ part.velocidad ∈ vs ∧ part.mejor_local ∈ ps ∧
        part.mejor_local = part.posicion
  | p :: ps, v :: vs, s :: ss, part, h => by
    simp only [crear_enjambre, List.mem_cons] at h
    cases h with
    | inl hh =>
      subst hh
      exact ⟨by simp, by simp, by simp, rfl⟩
    | inr hh =>
      obtain ⟨a, b, c, d⟩ := crear_enjambre_mem ps vs ss part hh
      exact ⟨List.mem_cons_of_mem _ a, List.mem_cons_of_mem _ b,
        List.mem_cons_of_mem _ c, d⟩
  | [], vs, ss, part, h => by simp [crear_enjambre] at h
  | p :: ps, [], ss, part, h => by simp [crear_enjambre] at h
  | p :: ps, v :: vs, [], part, h => by simp [crear_enjambre] at h

lemma crear_enjambre_length :
    ∀ (ps vs : List (List ℝ)) (ss : List ℝ),
      ps.length = vs.length → vs.length = ss.length →
      (crear_enjambre ps vs ss).length = ps.length
  | [], vs, ss, h1, h2 => by
    cases vs <;> cases ss <;> simp [crear_enjambre]
  | p :: ps, [], ss, h1, _ => by simp at h1
  | p :: ps, v :: vs, [], _, h2 => by simp at h2
  | p :: ps, v :: vs, s :: ss, h1, h2 => by
    simp only [List.length_cons] at h1 h2 ⊢
    rw [crear_enjambre]
    simp only [List.length_cons]
    rw [crear_enjambre_length ps vs ss (by omega) (by omega)]

lemma evaluar_lista_length (datos : List SamplePoint) :
    ∀ (ps : List (List ℝ)) (ss : List ℝ),
      evaluar_lista datos ps = some ss → ss.length = ps.length
  | [], ss, h => by
    simp only [evaluar_lista, Option.some.injEq] at h
    simp [← h]
  | p :: resto, ss, h => by
    rw [evaluar_lista] at h
    cases hev : evaluar_particula datos p with
    | none => rw [hev] at h; exact absurd h (by simp)
    | some s =>
      rw [hev] at h
      cases hrec : evaluar_lista datos resto with
      | none => rw [hrec] at h; exact absurd h (by simp)
      | some ssr =>
        rw [hrec] at h
        simp at h
        have := evaluar_lista_length datos resto ssr hrec
        simp [← h, this]

lemma inicializar_particula_length (lm lM om oM : ℝ) (g : ℕ → ℝ) :
    ∀ (n k : ℕ), (inicializar_particula lm lM om oM g k n).length = 2 * n
  | 0, k => by simp [inicializar_particula]
  | n + 1, k => by
    rw [inicializar_particula]
    simp only [List.length_cons]
    rw [inicializar_particula_length lm lM om oM g n (k + 2)]
    omega

lemma inicializar_particula_limites (lm lM om oM : ℝ) (g : ℕ → ℝ)
    (hla : lm ≤ lM) (hlo : om ≤ oM) (hg : ∀ i, 0 ≤ g i ∧ g i ≤ 1) :
    ∀ (n k : ℕ), en_limites lm lM om oM (inicializar_particula lm lM om oM g k n)
  | 0, k => by simp [inicializar_particula, en_limites]
  | n + 1, k => by
    rw [inicializar_particula]
    exact ⟨np_uniform_mem lm lM (g k) hla (hg k).1 (hg k).2,
      np_uniform_mem om oM (g (k + 1)) hlo (hg (k + 1)).1 (hg (k + 1)).2,
      inicializar_particula_limites lm lM om oM g hla hlo hg n (k + 2)⟩

lemma inicializar_particulas_mem (lm lM om oM : ℝ) (N : ℕ) (g : ℕ → ℝ) :
    ∀ (m k : ℕ) (p : List ℝ),
      p ∈ inicializar_particulas lm lM om oM N g k m →
      ∃ k', p = inicializar_particula lm lM om oM g k' N
  | 0, k, p, h => by simp [inicializar_particulas] at h
  | m + 1, k, p, h => by
    rw [inicializar_particulas] at h
    cases h with
    | head => exact ⟨k, rfl⟩
    | tail _ hh => exact inicializar_particulas_mem lm lM om oM N g m _ p hh

lemma inicializar_particulas_length (lm lM om oM : ℝ) (N : ℕ) (g : ℕ → ℝ) :
    ∀ (m k : ℕ), (inicializar_particulas lm lM om oM N g k m).length = m
  | 0, k => by simp [inicializar_particulas]
  | m + 1, k => by
    rw [inicializar_particulas]
    simp only [List.length_cons]
    rw [inicializar_particulas_length lm lM om oM N g m]

lemma inicializar_velocidad_length (g : ℕ → ℝ) :
    ∀ (j k : ℕ), (inicializar_velocidad g k j).length = j
  | 0, k => by simp [inicializar_velocidad]
  | j + 1, k => by
    rw [inicializar_velocidad]
    simp only [List.length_cons]
    rw [inicializar_velocidad_length g j (k + 1)]

lemma inicializar_velocidades_mem (N : ℕ) (g : ℕ → ℝ) :
    ∀ (m k : ℕ) (v : List ℝ),
      v ∈ inicializar_velocidades N g k m →
      ∃ k', v = inicializar_velocidad g k' (2 * N)
  | 0, k, v, h => by simp [inicializar_velocidades] at h
  | m + 1, k, v, h => by
    rw [inicializar_velocidades] at h
    cases h with
    | head => exact ⟨k, rfl⟩
    | tail _ hh => exact inicializar_velocidades_mem N g m _ v hh

lemma inicializar_velocidades_length (N : ℕ) (g : ℕ → ℝ) :
    ∀ (m k : ℕ), (inicializar_velocidades N g k m).length = m
  | 0, k => by simp [inicializar_velocidades]
  | m + 1, k => by
    rw [inicializar_velocidades]
    simp only [List.length_cons]
    rw [inicializar_velocidades_length N g m]

lemma forall2_le_eq_trans {l1 l2 l3 : List Particula}
    (h1 : List.Forall₂ (fun p q => p.mejor_puntaje_local ≤ q.mejor_puntaje_local) l1 l2)
    (h2 : List.Forall₂ (fun p q => q.mejor_puntaje_local = p.mejor_puntaje_local) l2 l3) :
    List.Forall₂ (fun p q => p.mejor_puntaje_local ≤ q.mejor_puntaje_local) l1 l3 := by
  induction h1 generalizing l3 with
  | nil => cases h2; exact List.Forall₂.nil
  | cons h t ih =>
    cases h2 with
    | cons h' t' => exact List.Forall₂.cons (le_of_le_of_eq h h'.symm) (ih t')

lemma forall2_le_le_trans {l1 l2 l3 : List Particula}
    (h1 : List.Forall₂ (fun p q => p.mejor_puntaje_local ≤ q.mejor_puntaje_local) l1 l2)
    (h2 : List.Forall₂ (fun p q => p.mejor_puntaje_local ≤ q.mejor_puntaje_local) l2 l3) :
    List.Forall₂ (fun p q => p.mejor_puntaje_local ≤ q.mejor_puntaje_local) l1 l3 := by
  induction h1 generalizing l3 with
  | nil => cases h2; exact List.Forall₂.nil
  | cons h t ih =>
    cases h2 with
    | cons h' t' => exact List.Forall₂.cons (le_trans h h') (ih t')

lemma amp_estructura (datos : List SamplePoint) :
    ∀ (enj : List Particula) (gb : List ℝ) (gs : ℝ) (enj' : List Particula)
      (gb' : List ℝ) (gs' : ℝ),
      actualizar_mejores_posiciones datos enj gb gs = some (enj', gb', gs') →
      gs ≤ gs' ∧
      (gb' = gb ∨ ∃ part ∈ enj, gb' = part.posicion) ∧
      enj'.length = enj.length ∧
      List.Forall₂ (fun p q => p.mejor_puntaje_local ≤ q.mejor_puntaje_local) enj enj' ∧
      (∀ q ∈ enj', ∃ p ∈ enj, q.posicion = p.posicion ∧ q.velocidad = p.velocidad ∧
        (q.mejor_local = p.mejor_local ∨ q.mejor_local = p.posicion))
  | [], gb, gs, enj', gb', gs', h => by
    simp only [actualizar_mejores_posiciones, Option.some.injEq, Prod.mk.injEq] at h
    obtain ⟨h1, h2, h3⟩ := h
    subst h1; subst h2; subst h3
    exact ⟨le_refl _, Or.inl rfl, rfl, List.Forall₂.nil, by simp⟩
  | part :: resto, gb, gs, enj', gb', gs', h => by
    rw [actualizar_mejores_posiciones] at h
    cases hev : evaluar_particula datos part.posicion with
    | none => rw [hev] at h; exact absurd h (by simp)
    | some s =>
      rw [hev] at h
      replace h : (actualizar_mejores_posiciones datos resto
          (if gs < s then part.posicion else gb) (if gs < s then s else gs)).bind
          (fun resultado =>
            some ((if part.mejor_puntaje_local < s then
                { part with mejor_local := part.posicion, mejor_puntaje_local := s }
              else part) :: resultado.1, resultado.2.1, resultado.2.2))
          = some (enj', gb', gs') := h
      cases hrec : actualizar_mejores_posiciones datos resto
          (if gs < s then part.posicion else gb) (if gs < s then s else gs) with
      | none => rw [hrec] at h; exact absurd h (by simp)
      | some resultado =>
        obtain ⟨enjr, gbr, gsr⟩ := resultado
        rw [hrec] at h
        simp only [Option.some_bind', Option.some.injEq, Prod.mk.injEq] at h
        obtain ⟨h1, h2, h3⟩ := h
        obtain ⟨ih1, ih2, ih3, ih4, ih5⟩ :=
          amp_estructura datos resto (if gs < s then part.posicion else gb)
            (if gs < s then s else gs) enjr gbr gsr hrec
        subst h1; subst h2; subst h3
        refine ⟨?_, ?_, by simp [ih3], ?_, ?_⟩
        · by_cases hgs : gs < s
          · rw [if_pos hgs] at ih1
            exact le_trans (le_of_lt hgs) ih1
          · rwa [if_neg hgs] at ih1
        · cases ih2 with
          | inl hh =>
            by_cases hgs : gs < s
            · rw [if_pos hgs] at hh
              exact Or.inr ⟨part, List.mem_cons_self _ _, hh⟩
            · rw [if_neg hgs] at hh
              exact Or.inl hh
          | inr hh =>
            obtain ⟨p, hp, hpp⟩ := hh
            exact Or.inr ⟨p, List.mem_cons_of_mem _ hp, hpp⟩
        · refine List.Forall₂.cons ?_ ih4
          by_cases hpl : part.mejor_puntaje_local < s
          · rw [if_pos hpl]
            exact le_of_lt hpl
          · rw [if_neg hpl]
        · intro q hq
          cases hq with
          | head =>
            by_cases hpl : part.mejor_puntaje_local < s
            · rw [if_pos hpl]
              exact ⟨part, List.mem_cons_self _ _, rfl, rfl, Or.inr rfl⟩
            · rw [if_neg hpl]
              exact ⟨part, List.mem_cons_self _ _, rfl, rfl, Or.inl rfl⟩
          | tail _ hh =>
            obtain ⟨p, hp, hps⟩ := ih5 q hh
            exact ⟨p, List.mem_cons_of_mem _ hp, hps⟩

lemma avp_props (lm lM om oM : ℝ) (gb : List ℝ) (g : ℕ → ℝ) (N : ℕ)
    (hgb : gb.length = 2 * N) (hla : lm ≤ lM) (hlo : om ≤ oM) :
    ∀ (enj : List Particula) (k : ℕ),
      (∀ part ∈ enj, part.posicion.length = 2 * N ∧ part.velocidad.length = 2 * N ∧
        part.mejor_local.length = 2 * N) →
      (actualizar_velocidades_posiciones lm lM om oM gb g k enj).length = enj.length ∧
      (∀ part' ∈ actualizar_velocidades_posiciones lm lM om oM gb g k enj,
        part'.posicion.length = 2 * N ∧ part'.velocidad.length = 2 * N ∧
        part'.mejor_local.length = 2 * N ∧ en_limites lm lM om oM part'.posicion) ∧
      List.Forall₂ (fun p q => q.mejor_puntaje_local = p.mejor_puntaje_local)
        enj (actualizar_velocidades_posiciones lm lM om oM gb g k enj)
  | [], k, _ => by
    simp [actualizar_velocidades_posiciones]
  | part :: resto, k, hlen => by
    obtain ⟨hp, hv, hm⟩ := hlen part (List.mem_cons_self _ _)
    have hvel : (nueva_velocidad (g k) (g (k + 1)) part.velocidad part.posicion
        part.mejor_local gb).length = 2 * N := by
      rw [nueva_velocidad_length (g k) (g (k + 1)) part.velocidad part.posicion
        part.mejor_local gb (by omega) (by omega) (by omega), hv]
    have hsum : (List.zipWith (fun x v => x + v) part.posicion
        (nueva_velocidad (g k) (g (k + 1)) part.velocidad part.posicion
          part.mejor_local gb)).length = 2 * N := by
      rw [List.length_zipWith, hp, hvel]
      omega
    have hpos : (aplicar_restricciones lm lM om oM
        (List.zipWith (fun x v => x + v) part.posicion
          (nueva_velocidad (g k) (g (k + 1)) part.velocidad part.posicion
            part.mejor_local gb))).length = 2 * N := by
      rw [aplicar_restricciones_length, hsum]
    have hlim : en_limites lm lM om oM (aplicar_restricciones lm lM om oM
        (List.zipWith (fun x v => x + v) part.posicion
          (nueva_velocidad (g k) (g (k + 1)) part.velocidad part.posicion
            part.mejor_local gb))) :=
      en_limites_aplicar lm lM om oM hla hlo _ (by rw [hsum]; omega)
    obtain ⟨ih1, ih2, ih3⟩ := avp_props lm lM om oM gb g N hgb hla hlo resto (k + 2)
      (fun q hq => hlen q (List.mem_cons_of_mem _ hq))
    rw [actualizar_velocidades_posiciones]
    refine ⟨by simp [ih1], ?_, List.Forall₂.cons rfl ih3⟩
    intro part' hpart'
    cases hpart' with
    | head => exact ⟨hpos, hvel, hm, hlim⟩
    | tail _ hh => exact ih2 part' hh

lemma avp_length (lm lM om oM : ℝ) (gb : List ℝ) (g : ℕ → ℝ) :
    ∀ (enj : List Particula) (k : ℕ),
      (actualizar_velocidades_posiciones lm lM om oM gb g k enj).length = enj.length
  | [], k => by simp [actualizar_velocidades_posiciones]
  | part :: resto, k => by
    rw [actualizar_velocidades_posiciones]
    simp only [List.length_cons]
    rw [avp_length lm lM om oM gb g resto (k + 2)]

lemma avp_pbest (lm lM om oM : ℝ) (gb : List ℝ) (g : ℕ → ℝ) :
    ∀ (enj : List Particula) (k : ℕ),
      List.Forall₂ (fun p q => q.mejor_puntaje_local = p.mejor_puntaje_local)
        enj (actualizar_velocidades_posiciones lm lM om oM gb g k enj)
  | [], k => by
    simp [actualizar_velocidades_posiciones]
  | part :: resto, k => by
    rw [actualizar_velocidades_posiciones]
    exact List.Forall₂.cons rfl (avp_pbest lm lM om oM gb g resto (k + 2))

lemma iteracion_props (N : ℕ) (datos : List SamplePoint) (g : ℕ → ℝ) (k : ℕ)
    (st st' : PSOState) (h : iteracion datos g k st = some st') :
    st'.n_sensores = st.n_sensores ∧
    st'.n_particulas = st.n_particulas ∧
    st'.max_iter = st.max_iter ∧
    st'.lat_min = st.lat_min ∧ st'.lat_max = st.lat_max ∧
    st'.lon_min = st.lon_min ∧ st'.lon_max = st.lon_max ∧
    st'.enjambre.length = st.enjambre.length ∧
    st.mejor_puntaje_global ≤ st'.mejor_puntaje_global ∧
    st'.historial_puntajes = st.historial_puntajes ++ [st'.mejor_puntaje_global] ∧
    List.Forall₂ (fun p q => p.mejor_puntaje_local ≤ q.mejor_puntaje_local)
      st.enjambre st'.enjambre ∧
    (st.lat_min ≤ st.lat_max → st.lon_min ≤ st.lon_max → longitudes_ok N st →
      longitudes_ok N st' ∧ (posiciones_en_limites st → posiciones_en_limites st')) := by
  rw [iteracion] at h
  cases hamp : actualizar_mejores_posiciones datos st.enjambre st.mejor_global
      st.mejor_puntaje_global with
  | none => rw [hamp] at h; exact absurd h (by simp)
  | some resultado =>
    obtain ⟨enj₁, gb₁, gs₁⟩ := resultado
    rw [hamp] at h
    simp only [Option.map_some', Option.some.injEq] at h
    obtain ⟨a1, a2, a3, a4, a5⟩ := amp_estructura datos st.enjambre st.mejor_global
      st.mejor_puntaje_global enj₁ gb₁ gs₁ hamp
    subst h
    refine ⟨rfl, rfl, rfl, rfl, rfl, rfl, rfl, ?_, a1, rfl, ?_, ?_⟩
    · show (actualizar_velocidades_posiciones st.lat_min st.lat_max st.lon_min
        st.lon_max gb₁ g k enj₁).length = st.enjambre.length
      rw [avp_length, a3]
    · exact forall2_le_eq_trans a4
        (avp_pbest st.lat_min st.lat_max st.lon_min st.lon_max gb₁ g enj₁ k)
    · intro hla hlo hlong
      obtain ⟨hpartes, hglobal⟩ := hlong
      cases hglobal with
      | inr hvacio =>
        obtain ⟨henj, hgb⟩ := hvacio
        have henj₁ : enj₁ = [] := by
          rw [henj] at a3
          exact List.eq_nil_of_length_eq_zero a3
        have hgb₁ : gb₁ = [] := by
          cases a2 with
          | inl hh => rw [hh, hgb]
          | inr hh =>
            obtain ⟨p, hp, _⟩ := hh
            rw [henj] at hp
            exact absurd hp (List.not_mem_nil p)
        subst henj₁
        constructor
        · exact ⟨by simp [longitudes_ok, actualizar_velocidades_posiciones],
            Or.inr ⟨by simp [actualizar_velocidades_posiciones], hgb₁⟩⟩
        · intro _
          refine ⟨?_, ?_⟩
          · intro part hpart
            simp [actualizar_velocidades_posiciones] at hpart
          · show en_limites st.lat_min st.lat_max st.lon_min st.lon_max gb₁
            rw [hgb₁]
            trivial
      | inl hgb2N =>
        have hlen₁ : ∀ q ∈ enj₁, q.posicion.length = 2 * N ∧
            q.velocidad.length = 2 * N ∧ q.mejor_local.length = 2 * N := by
          intro q hq
          obtain ⟨p, hp, hqp, hqv, hqm⟩ := a5 q hq
          obtain ⟨hp1, hp2, hp3⟩ := hpartes p hp
          refine ⟨by rw [hqp]; exact hp1, by rw [hqv]; exact hp2, ?_⟩
          cases hqm with
          | inl hh => rw [hh]; exact hp3
          | inr hh => rw [hh]; exact hp1
        have hgb₁ : gb₁.length = 2 * N := by
          cases a2 with
          | inl hh => rw [hh]; exact hgb2N
          | inr hh =>
            obtain ⟨p, hp, hpp⟩ := hh
            rw [hpp]
            exact (hpartes p hp).1
        obtain ⟨_, bprops, _⟩ := avp_props st.lat_min st.lat_max st.lon_min st.lon_max
          gb₁ g N hgb₁ hla hlo enj₁ k hlen₁
        constructor
        · exact ⟨fun q hq => ⟨(bprops q hq).1, (bprops q hq).2.1, (bprops q hq).2.2.1⟩,
            Or.inl hgb₁⟩
        · intro hpos
          refine ⟨fun q hq => (bprops q hq).2.2.2, ?_⟩
          show en_limites st.lat_min st.lat_max st.lon_min st.lon_max gb₁
          cases a2 with
          | inl hh => rw [hh]; exact hpos.2
          | inr hh =>
            obtain ⟨p, hp, hpp⟩ := hh
            rw [hpp]
            exact hpos.1 p hp

lemma mem_de_getLast {l : List ℝ} {x : ℝ} (h : x ∈ l.getLast?) : x ∈ l := by
  obtain ⟨hne, rfl⟩ := List.mem_getLast?_eq_getLast h
  exact List.getLast_mem hne

lemma bucle_props (N : ℕ) (datos : List SamplePoint) (g : ℕ → ℝ) :
    ∀ (t k : ℕ) (st stf : PSOState),
      optimizar_bucle datos g t k st = some stf →
      stf.n_sensores = st.n_sensores ∧
      stf.n_particulas = st.n_particulas ∧
      stf.max_iter = st.max_iter ∧
      stf.lat_min = st.lat_min ∧ stf.lat_max = st.lat_max ∧
      stf.lon_min = st.lon_min ∧ stf.lon_max = st.lon_max ∧
      stf.enjambre.length = st.enjambre.length ∧
      st.mejor_puntaje_global ≤ stf.mejor_puntaje_global ∧
      stf.historial_puntajes.length = st.historial_puntajes.length + t ∧
      List.Forall₂ (fun p q => p.mejor_puntaje_local ≤ q.mejor_puntaje_local)
        st.enjambre stf.enjambre ∧
      ((List.Chain' (fun a b => a ≤ b) st.historial_puntajes ∧
        (∀ x ∈ st.historial_puntajes, x ≤ st.mejor_puntaje_global)) →
        List.Chain' (fun a b => a ≤ b) stf.historial_puntajes ∧
        (∀ x ∈ stf.historial_puntajes, x ≤ stf.mejor_puntaje_global)) ∧
      (st.lat_min ≤ st.lat_max → st.lon_min ≤ st.lon_max → longitudes_ok N st →
        longitudes_ok N stf ∧ (posiciones_en_limites st → posiciones_en_limites stf))
  | 0, k, st, stf, h => by
    simp only [optimizar_bucle, Option.some.injEq] at h
    subst h
    refine ⟨rfl, rfl, rfl, rfl, rfl, rfl, rfl, rfl, le_refl _, rfl, ?_, id, ?_⟩
    · rw [List.forall₂_same]
      exact fun x _ => le_refl _
    · intro _ _ hh
      exact ⟨hh, id⟩
  | t + 1, k, st, stf, h => by
    rw [optimizar_bucle] at h
    cases hit : iteracion datos g k st with
    | none =>
      rw [hit] at h
      exact Option.noConfusion h
    | some st' =>
      rw [hit] at h
      replace h : optimizar_bucle datos g t (k + 2 * st.enjambre.length) st'
          = some stf := h
      obtain ⟨i1, i2, i3, i4, i5, i6, i7, i8, i9, i10, i11, i12⟩ :=
        iteracion_props N datos g k st st' hit
      obtain ⟨b1, b2, b3, b4, b5, b6, b7, b8, b9, b10, b11, b12, b13⟩ :=
        bucle_props N datos g t (k + 2 * st.enjambre.length) st' stf h
      refine ⟨by rw [b1, i1], by rw [b2, i2], by rw [b3, i3], by rw [b4, i4],
        by rw [b5, i5], by rw [b6, i6], by rw [b7, i7], by rw [b8, i8],
        le_trans i9 b9, by rw [b10, i10]; simp; omega, forall2_le_le_trans i11 b11, ?_, ?_⟩
      · intro hok
        refine b12 ⟨?_, ?_⟩
        · rw [i10, List.chain'_append]
          refine ⟨hok.1, List.chain'_singleton _, ?_⟩
          intro x hx y hy
          simp only [List.head?_cons, Option.mem_def, Option.some.injEq] at hy
          subst hy
          exact le_trans (hok.2 x (mem_de_getLast hx)) i9
        · intro x hx
          rw [i10] at hx
          rcases List.mem_append.mp hx with hx | hx
          · exact le_trans (hok.2 x hx) i9
          · simp only [List.mem_singleton] at hx
            subst hx
            exact le_refl _
      · intro hla hlo hok
        obtain ⟨hok', himp⟩ := i12 hla hlo hok
        obtain ⟨hok'', himp'⟩ := b13 (by rw [i4, i5] at *; exact hla)
          (by rw [i6, i7] at *; exact hlo) hok'
        exact ⟨hok'', fun hp => himp' (himp hp)⟩

lemma pso_init_props (datos : List SamplePoint) (N M : ℕ) (T : ℤ) (g : ℕ → ℝ)
    (k : ℕ) (st : PSOState) (h : pso_init datos N M T g k = some st) :
    st.n_sensores = N ∧ st.n_particulas = M ∧ st.max_iter = T ∧
    st.lat_min = minimo (datos.map (fun p => p.latitud)) ∧
    st.lat_max = maximo (datos.map (fun p => p.latitud)) ∧
    st.lon_min = minimo (datos.map (fun p => p.longitud)) ∧
    st.lon_max = maximo (datos.map (fun p => p.longitud)) ∧
    st.historial_puntajes = [] ∧
    st.enjambre.length = M ∧
    longitudes_ok N st ∧
    ((∀ i, 0 ≤ g i ∧ g i ≤ 1) → datos ≠ [] → posiciones_en_limites st) := by
  rw [pso_init] at h
  cases hev : evaluar_lista datos
      (inicializar_particulas (minimo (datos.map (fun p => p.latitud)))
        (maximo (datos.map (fun p => p.latitud)))
        (minimo (datos.map (fun p => p.longitud)))
        (maximo (datos.map (fun p => p.longitud))) N g k M) with
  | none => rw [hev] at h; exact absurd h (by simp)
  | some puntajes =>
    rw [hev] at h
    simp only [Option.map_some', Option.some.injEq] at h
    subst h
    have hplen : (inicializar_particulas (minimo (datos.map (fun p => p.latitud)))
        (maximo (datos.map (fun p => p.latitud)))
        (minimo (datos.map (fun p => p.longitud)))
        (maximo (datos.map (fun p => p.longitud))) N g k M).length = M :=
      inicializar_particulas_length _ _ _ _ N g M k
    have hvlen : (inicializar_velocidades N g (k + 2 * N * M) M).length = M :=
      inicializar_velocidades_length N g M _
    have hslen : puntajes.length = M := by
      rw [evaluar_lista_length datos _ puntajes hev, hplen]
    have henj : (crear_enjambre
        (inicializar_particulas (minimo (datos.map (fun p => p.latitud)))
          (maximo (datos.map (fun p => p.latitud)))
          (minimo (datos.map (fun p => p.longitud)))
          (maximo (datos.map (fun p => p.longitud))) N g k M)
        (inicializar_velocidades N g (k + 2 * N * M) M) puntajes).length = M := by
      rw [crear_enjambre_length _ _ _ (by rw [hplen, hvlen]) (by rw [hvlen, hslen]),
        hplen]
    refine ⟨rfl, rfl, rfl, rfl, rfl, rfl, rfl, rfl, henj, ?_, ?_⟩
    · constructor
      · intro part hpart
        obtain ⟨hpos, hvel, hml, hmleq⟩ := crear_enjambre_mem _ _ _ part hpart
        obtain ⟨k₁, hk₁⟩ := inicializar_particulas_mem _ _ _ _ N g M k _ hpos
        obtain ⟨k₂, hk₂⟩ := inicializar_velocidades_mem N g M _ _ hvel
        obtain ⟨k₃, hk₃⟩ := inicializar_particulas_mem _ _ _ _ N g M k _ hml
        exact ⟨by rw [hk₁, inicializar_particula_length],
          by rw [hk₂, inicializar_velocidad_length],
          by rw [hk₃, inicializar_particula_length]⟩
      · by_cases hM : M = 0
        · subst hM
          refine Or.inr ⟨List.eq_nil_of_length_eq_zero henj, ?_⟩
          have : puntajes = [] := List.eq_nil_of_length_eq_zero hslen
          subst this
          rfl
        · refine Or.inl ?_
          have hne : puntajes ≠ [] := by
            intro hh
            rw [hh] at hslen
            exact hM hslen.symm
          have hidx : np_argmax puntajes < M := by
            have := np_argmax_lt puntajes hne
            rwa [hslen] at this
          have hmem := getD_mem_de_lt _ (np_argmax puntajes) ([] : List ℝ)
            (by rw [hplen]; exact hidx)
          obtain ⟨k₁, hk₁⟩ := inicializar_particulas_mem _ _ _ _ N g M k _ hmem
          show (_ : List ℝ).length = 2 * N
          rw [hk₁, inicializar_particula_length]
    · intro hg hd
      have hla : minimo (datos.map (fun p => p.latitud))
          ≤ maximo (datos.map (fun p => p.latitud)) :=
        minimo_le_maximo _ (by simp [hd])
      have hlo : minimo (datos.map (fun p => p.longitud))
          ≤ maximo (datos.map (fun p => p.longitud)) :=
        minimo_le_maximo _ (by simp [hd])
      constructor
      · intro part hpart
        obtain ⟨hpos, _, _, _⟩ := crear_enjambre_mem _ _ _ part hpart
        obtain ⟨k₁, hk₁⟩ := inicializar_particulas_mem _ _ _ _ N g M k _ hpos
        show en_limites _ _ _ _ part.posicion
        rw [hk₁]
        exact inicializar_particula_limites _ _ _ _ g hla hlo (fun i => hg i) N k₁
      · by_cases hM : M = 0
        · subst hM
          have : puntajes = [] := List.eq_nil_of_length_eq_zero hslen
          subst this
          exact trivial
        · have hne : puntajes ≠ [] := by
            intro hh
            rw [hh] at hslen
            exact hM hslen.symm
          have hidx : np_argmax puntajes < M := by
            have := np_argmax_lt puntajes hne
            rwa [hslen] at this
          have hmem := getD_mem_de_lt _ (np_argmax puntajes) ([] : List ℝ)
            (by rw [hplen]; exact hidx)
          obtain ⟨k₁, hk₁⟩ := inicializar_particulas_mem _ _ _ _ N g M k _ hmem
          have hgoal := inicializar_particula_limites _ _ _ _ g hla hlo (fun i => hg i) N k₁
          rw [← hk₁] at hgoal
          exact hgoal

lemma aplicar_exceso (lm lM om oM : ℝ) (hla : lm ≤ lM) :
    ∀ (l : List ℝ) (i : ℕ), l.length % 2 = 0 → i % 2 = 0 →
      lM < l.getD i lM → (aplicar_restricciones lm lM om oM l).getD i lM = lM
  | [], i, _, _, hx => by simp [List.getD] at hx
  | [a], i, h, _, _ => by simp at h
  | a :: b :: resto, 0, _, _, hx => by
    rw [aplicar_restricciones]
    simp only [List.getD_cons_zero] at hx ⊢
    exact np_clip_exceso a lm lM hla hx
  | a :: b :: resto, 1, _, hi, _ => by simp at hi
  | a :: b :: resto, i + 2, h, hi, hx => by
    rw [aplicar_restricciones]
    simp only [List.getD_cons_succ] at hx ⊢
    refine aplicar_exceso lm lM om oM hla resto i ?_ (by omega) hx
    simp only [List.length_cons] at h
    omega

/-- C8: over a whole optimization run (construction followed by the
iteration loop), every particle's `mejor_puntaje_local` never decreases,
the swarm's `mejor_puntaje_global` never decreases, and the score history
recorded in `historial_puntajes` is a non-decreasing sequence — for any
dataset and any random stream. -/
theorem c8_teorema (datos : List SamplePoint) (N M : ℕ) (T : ℤ) (g : ℕ → ℝ)
    (k k' : ℕ) (st stf : PSOState)
    (hinit : pso_init datos N M T g k = some st)
    (hrun : optimizar_bucle datos g (max 0 st.max_iter).toNat k' st = some stf) :
    List.Forall₂ (fun p q => p.mejor_puntaje_local ≤ q.mejor_puntaje_local)
      st.enjambre stf.enjambre ∧
    st.mejor_puntaje_global ≤ stf.mejor_puntaje_global ∧
    List.Chain' (fun a b => a ≤ b) stf.historial_puntajes := by
  obtain ⟨_, _, _, _, _, _, _, hhist, _, _, _⟩ :=
    pso_init_props datos N M T g k st hinit
  obtain ⟨_, _, _, _, _, _, _, _, b9, _, b11, b12, _⟩ :=
    bucle_props N datos g (max 0 st.max_iter).toNat k' st stf hrun
  refine ⟨b11, b9, ?_⟩
  have := b12 ⟨by rw [hhist]; exact List.chain'_nil, by rw [hhist]; simp⟩
  exact this.1

/-- C9: the optimization loop runs exactly `T` times with no early exit,
appending exactly one global-best-score entry to `historial_puntajes` per
iteration — so after a run with iteration budget `T ≥ 0` the recorded
history has length exactly `T` — and `optimizar` then returns the global
best position reshaped by `_formatear_sensores` together with the global
best score. -/
theorem c9_teorema (datos : List SamplePoint) (N M T : ℕ) (g : ℕ → ℝ)
    (k k' : ℕ) (st stf : PSOState)
    (hinit : pso_init datos N M (T : ℤ) g k = some st)
    (hrun : optimizar_bucle datos g (max 0 st.max_iter).toNat k' st = some stf) :
    stf.historial_puntajes.length = T ∧
    optimizar datos g k' st
      = some (formatear_sensores stf.mejor_global, stf.mejor_puntaje_global) := by
  obtain ⟨_, _, hmax, _, _, _, _, hhist, _, _, _⟩ :=
    pso_init_props datos N M (T : ℤ) g k st hinit
  obtain ⟨_, _, _, _, _, _, _, _, _, b10, _, _, _⟩ :=
    bucle_props N datos g (max 0 st.max_iter).toNat k' st stf hrun
  constructor
  · rw [b10, hhist, hmax]
    simp
  · rw [optimizar, hrun]
    rfl

/-- C7: positions are hard-clamped to the geographic domain.  First, for
any even-length position vector, after `_aplicar_restricciones` every
latitude (even) component lies in `[lat_min, lat_max]` and every longitude
(odd) component in `[lon_min, lon_max]`, and the vector's length is
unchanged (no reflection or wrap).  Second, a position component that a
velocity step pushed strictly past `lat_max` is clamped to exactly
`lat_max`.  Third, over a whole run on a non-empty dataset with
unit-interval random draws, every particle position after every update and
every sensor coordinate pair returned from the global best lie within the
domain bounds computed at construction. -/
theorem c7_teorema :
    (∀ (lm lM om oM : ℝ) (l : List ℝ), lm ≤ lM → om ≤ oM → l.length % 2 = 0 →
      en_limites lm lM om oM (aplicar_restricciones lm lM om oM l) ∧
      (aplicar_restricciones lm lM om oM l).length = l.length) ∧
    (∀ (lm lM om oM : ℝ) (l : List ℝ) (i : ℕ), lm ≤ lM →
      l.length % 2 = 0 → i % 2 = 0 → lM < l.getD i lM →
      (aplicar_restricciones lm lM om oM l).getD i lM = lM) ∧
    (∀ (datos : List SamplePoint) (N M : ℕ) (T : ℤ) (g : ℕ → ℝ)
      (k k' : ℕ) (st stf : PSOState), datos ≠ [] → (∀ i, 0 ≤ g i ∧ g i ≤ 1) →
      pso_init datos N M T g k = some st →
      optimizar_bucle datos g (max 0 st.max_iter).toNat k' st = some stf →
      (∀ part ∈ stf.enjambre,
        en_limites st.lat_min st.lat_max st.lon_min st.lon_max part.posicion) ∧
      (∀ sensor ∈ formatear_sensores stf.mejor_global,
        en_limites st.lat_min st.lat_max st.lon_min st.lon_max sensor)) := by
  refine ⟨?_, ?_, ?_⟩
  · intro lm lM om oM l hla hlo hpar
    exact ⟨en_limites_aplicar lm lM om oM hla hlo l hpar,
      aplicar_restricciones_length lm lM om oM l⟩
  · intro lm lM om oM l i hla hpar hi hx
    exact aplicar_exceso lm lM om oM hla l i hpar hi hx
  · intro datos N M T g k k' st stf hd hg hinit hrun
    obtain ⟨_, _, _, hlatmin, hlatmax, hlonmin, hlonmax, _, _, hlong, hpos⟩ :=
      pso_init_props datos N M T g k st hinit
    obtain ⟨_, _, _, b4, b5, b6, b7, _, _, _, _, _, b13⟩ :=
      bucle_props N datos g (max 0 st.max_iter).toNat k' st stf hrun
    have hla : st.lat_min ≤ st.lat_max := by
      rw [hlatmin, hlatmax]
      exact minimo_le_maximo _ (by simp [hd])
    have hlo : st.lon_min ≤ st.lon_max := by
      rw [hlonmin, hlonmax]
      exact minimo_le_maximo _ (by simp [hd])
    obtain ⟨_, himp⟩ := b13 hla hlo hlong
    have hposf : posiciones_en_limites stf := himp (hpos hg hd)
    obtain ⟨hp1, hp2⟩ := hposf
    rw [b4, b5, b6, b7] at hp1 hp2
    exact ⟨hp1, en_limites_formatear _ _ _ _ stf.mejor_global hp2⟩

/-- C10: formatting a flat position vector of even length `2 * N` yields
exactly `N` coordinate pairs whose in-order concatenation is the original
vector (a lossless round-trip); consequently, on a run that returns, the
configuration `optimizar` produces contains exactly `n_sensores`
coordinate pairs. -/
theorem c10_teorema :
    (∀ (l : List ℝ) (N : ℕ), l.length = 2 * N →
      (formatear_sensores l).length = N ∧ (formatear_sensores l).flatten = l) ∧
    (∀ (datos : List SamplePoint) (N M : ℕ) (T : ℤ) (g : ℕ → ℝ) (k k' : ℕ)
      (st : PSOState) (cfg : List (List ℝ)) (puntaje : ℝ),
      1 ≤ M → datos ≠ [] →
      pso_init datos N M T g k = some st →
      optimizar datos g k' st = some (cfg, puntaje) →
      cfg.length = N) := by
  constructor
  · intro l N h
    exact ⟨formatear_sensores_length l N h, formatear_sensores_flatten l⟩
  · intro datos N M T g k k' st cfg puntaje hM hd hinit hopt
    obtain ⟨_, _, _, hlatmin, hlatmax, hlonmin, hlonmax, _, hlen, hlong, _⟩ :=
      pso_init_props datos N M T g k st hinit
    rw [optimizar] at hopt
    cases hrun : optimizar_bucle datos g (max 0 st.max_iter).toNat k' st with
    | none => rw [hrun] at hopt; exact absurd hopt (by simp)
    | some stf =>
      rw [hrun] at hopt
      simp only [Option.map_some', Option.some.injEq, Prod.mk.injEq] at hopt
      obtain ⟨hcfg, _⟩ := hopt
      obtain ⟨_, _, _, _, _, _, _, b8, _, _, _, _, b13⟩ :=
        bucle_props N datos g (max 0 st.max_iter).toNat k' st stf hrun
      have hla : st.lat_min ≤ st.lat_max := by
        rw [hlatmin, hlatmax]
        exact minimo_le_maximo _ (by simp [hd])
      have hlo : st.lon_min ≤ st.lon_max := by
        rw [hlonmin, hlonmax]
        exact minimo_le_maximo _ (by simp [hd])
      obtain ⟨hlongf, _⟩ := b13 hla hlo hlong
      cases hlongf.2 with
      | inl h2N =>
        rw [← hcfg]
        exact formatear_sensores_length stf.mejor_global N h2N
      | inr hvacio =>
        have : stf.enjambre.length = M := by rw [b8, hlen]
        rw [hvacio.1] at this
        simp at this
        omega

lemma flujo_cero_unidad : ∀ i, 0 ≤ flujo_cero i ∧ flujo_cero i ≤ 1 := by
  intro i
  simp [flujo_cero]

lemma pso_init_testigo (T : ℤ) :
    pso_init datos_origen 1 1 T flujo_cero 0 = some (estado_testigo T) := by
  have hlat : datos_origen.map (fun p => p.latitud) = [0, 0, 0] := rfl
  have hlon : datos_origen.map (fun p => p.longitud) = [0, 0, 0] := rfl
  have hmin : minimo [(0 : ℝ), 0, 0] = 0 := by simp [minimo]
  have hmax : maximo [(0 : ℝ), 0, 0] = 0 := by simp [maximo]
  have hpart : inicializar_particulas 0 0 0 0 1 flujo_cero 0 1 = [[0, 0]] := by
    simp [inicializar_particulas, inicializar_particula, np_uniform, flujo_cero]
  have hvel : ∀ k : ℕ, inicializar_velocidades 1 flujo_cero k 1
      = [[-0.001, -0.001]] := by
    intro k
    simp [inicializar_velocidades, inicializar_velocidad, np_uniform, flujo_cero]
  have hlista : evaluar_lista datos_origen [[(0 : ℝ), 0]] = some [5 / 6] := by
    simp [evaluar_lista, evaluar_origen]
  rw [pso_init]
  simp only [hlat, hlon, hmin, hmax, hpart, hvel, hlista, Option.map_some']
  simp [estado_testigo, np_argmax, crear_enjambre]

lemma iteracion_testigo :
    iteracion datos_origen flujo_cero 4 (estado_testigo 1) = some estado_testigo_final := by
  have hamp : actualizar_mejores_posiciones datos_origen (estado_testigo 1).enjambre
      (estado_testigo 1).mejor_global (estado_testigo 1).mejor_puntaje_global
      = some ((estado_testigo 1).enjambre, [0, 0], 5 / 6) := by
    simp [estado_testigo, actualizar_mejores_posiciones, evaluar_origen]
  rw [iteracion, hamp]
  simp only [Option.map_some', Option.some.injEq]
  simp only [estado_testigo, estado_testigo_final, actualizar_velocidades_posiciones,
    nueva_velocidad, aplicar_restricciones, np_clip, flujo_cero]
  norm_num [inercia, cognitivo, social, velocidad_maxima, min_def, max_def]

lemma bucle_testigo :
    optimizar_bucle datos_origen flujo_cero 1 4 (estado_testigo 1)
      = some estado_testigo_final := by
  rw [optimizar_bucle, iteracion_testigo]
  rfl

lemma optimizar_testigo :
    optimizar datos_origen flujo_cero 4 (estado_testigo 1)
      = some ([[(0 : ℝ), 0]], 5 / 6) := by
  rw [optimizar, show (max 0 (estado_testigo 1).max_iter).toNat = 1 from rfl,
    bucle_testigo]
  rfl

/-- C3: the constructor performs no input validation: with the degenerate
iteration budget `max_iter = -1` (the claim's `T < 0` case) construction
succeeds and returns a state, and the subsequent `optimizar` call returns
normally after zero iterations — refuting «constructing the PSO optimizer
fails with a descriptive error; construction never succeeds on such
inputs». -/
theorem c3_teorema :
    pso_init datos_origen 1 1 (-1) flujo_cero 0 = some (estado_testigo (-1)) ∧
    optimizar datos_origen flujo_cero 4 (estado_testigo (-1))
      = some ([[(0 : ℝ), 0]], 5 / 6) := by
  refine ⟨pso_init_testigo (-1), ?_⟩
  rw [optimizar, show (max 0 (estado_testigo (-1)).max_iter).toNat = 0 from rfl]
  rw [optimizar_bucle]
  rfl

/-- C8 witness: the one-sensor one-particle run on the origin dataset with
the all-zero stream and budget 1; both hypotheses hold concretely and the
conclusions are instantiated at that run. -/
theorem c8_testigo :
    pso_init datos_origen 1 1 1 flujo_cero 0 = some (estado_testigo 1) ∧
    optimizar_bucle datos_origen flujo_cero
      (max 0 (estado_testigo 1).max_iter).toNat 4 (estado_testigo 1)
      = some estado_testigo_final ∧
    List.Forall₂ (fun p q => p.mejor_puntaje_local ≤ q.mejor_puntaje_local)
      (estado_testigo 1).enjambre estado_testigo_final.enjambre ∧
    (estado_testigo 1).mejor_puntaje_global
      ≤ estado_testigo_final.mejor_puntaje_global ∧
    List.Chain' (fun a b => a ≤ b) estado_testigo_final.historial_puntajes := by
  have h1 := pso_init_testigo 1
  have h2 : optimizar_bucle datos_origen flujo_cero
      (max 0 (estado_testigo 1).max_iter).toNat 4 (estado_testigo 1)
      = some estado_testigo_final := bucle_testigo
  have h3 := c8_teorema datos_origen 1 1 1 flujo_cero 0 4 (estado_testigo 1)
    estado_testigo_final h1 h2
  exact ⟨h1, h2, h3.1, h3.2.1, h3.2.2⟩

/-- C9 witness: the same concrete run; the recorded history has length
exactly 1 and `optimizar` returns the reshaped global best with its
score. -/
theorem c9_testigo :
    pso_init datos_origen 1 1 ((1 : ℕ) : ℤ) flujo_cero 0 = some (estado_testigo 1) ∧
    optimizar_bucle datos_origen flujo_cero
      (max 0 (estado_testigo 1).max_iter).toNat 4 (estado_testigo 1)
      = some estado_testigo_final ∧
    estado_testigo_final.historial_puntajes.length = 1 ∧
    optimizar datos_origen flujo_cero 4 (estado_testigo 1)
      = some (formatear_sensores estado_testigo_final.mejor_global,
          estado_testigo_final.mejor_puntaje_global) := by
  have h1 : pso_init datos_origen 1 1 ((1 : ℕ) : ℤ) flujo_cero 0
      = some (estado_testigo 1) := pso_init_testigo 1
  have h2 : optimizar_bucle datos_origen flujo_cero
      (max 0 (estado_testigo 1).max_iter).toNat 4 (estado_testigo 1)
      = some estado_testigo_final := bucle_testigo
  have h3 := c9_teorema datos_origen 1 1 1 flujo_cero 0 4 (estado_testigo 1)
    estado_testigo_final h1 h2
  exact ⟨h1, h2, h3.1, h3.2⟩

/-- C7 witness: the clamp conclusions instantiated at the concrete vector
`[2, 3]` in the domain `[0,1] × [0,1]` (the 2 overshoots `lat_max = 1` and
is clamped to exactly 1), and the run-level conclusion instantiated at the
concrete witness run. -/
theorem c7_testigo :
    en_limites (0 : ℝ) 1 0 1 (aplicar_restricciones 0 1 0 1 [2, 3]) ∧
    (aplicar_restricciones (0 : ℝ) 1 0 1 [2, 3]).getD 0 1 = 1 ∧
    datos_origen ≠ [] ∧
    (∀ part ∈ estado_testigo_final.enjambre,
      en_limites (estado_testigo 1).lat_min (estado_testigo 1).lat_max
        (estado_testigo 1).lon_min (estado_testigo 1).lon_max part.posicion) := by
  have h3 := c7_teorema.2.2 datos_origen 1 1 1 flujo_cero 0 4 (estado_testigo 1)
    estado_testigo_final (by simp [datos_origen]) flujo_cero_unidad
    (pso_init_testigo 1)
    (show optimizar_bucle datos_origen flujo_cero
      (max 0 (estado_testigo 1).max_iter).toNat 4 (estado_testigo 1)
      = some estado_testigo_final from bucle_testigo)
  refine ⟨(c7_teorema.1 0 1 0 1 [2, 3] (by norm_num) (by norm_num) (by norm_num)).1,
    c7_teorema.2.1 0 1 0 1 [2, 3] 0 (by norm_num) (by norm_num) (by norm_num) ?_,
    by simp [datos_origen], h3.1⟩
  simp only [List.getD_cons_zero]
  norm_num

/-- C10 witness: the round trip instantiated at the concrete vector
`[1, 2]` with one pair, and the run-level conclusion instantiated at the
concrete witness run whose returned configuration is `[[0, 0]]`, one pair
for the single sensor. -/
theorem c10_testigo :
    [(1 : ℝ), 2].length = 2 * 1 ∧
    (formatear_sensores [(1 : ℝ), 2]).length = 1 ∧
    (formatear_sensores [(1 : ℝ), 2]).flatten = [1, 2] ∧
    datos_origen ≠ [] ∧
    optimizar datos_origen flujo_cero 4 (estado_testigo 1)
      = some ([[(0 : ℝ), 0]], 5 / 6) ∧
    ([[(0 : ℝ), 0]] : List (List ℝ)).length = 1 := by
  have hrt := c10_teorema.1 [(1 : ℝ), 2] 1 (by norm_num)
  have h2 := c10_teorema.2 datos_origen 1 1 1 flujo_cero 0 4 (estado_testigo 1)
    [[(0 : ℝ), 0]] (5 / 6) (le_refl 1) (by simp [datos_origen])
    (pso_init_testigo 1) optimizar_testigo
  exact ⟨by norm_num, hrt.1, hrt.2, by simp [datos_origen], optimizar_testigo, h2⟩

lemma np_uniform_cero (u : ℝ) : np_uniform 0 0 u = 0 := by
  simp [np_uniform]

lemma funcion_objetivo_es_some (u : List (List ℝ)) (datos : List SamplePoint)
    (hm : ¬ conteo_total datos Cultivo.maiz = 0)
    (ht : ¬ conteo_total datos Cultivo.tomate = 0)
    (hc : ¬ conteo_total datos Cultivo.chile = 0) :
    ∃ s, funcion_objetivo u datos = some s := by
  rw [← Option.isSome_iff_exists]
  simp [funcion_objetivo, balance_entre_cultivos, puntaje_cultivo, hm, ht, hc]

lemma pso_init_span (k : ℕ) :
    ∃ st, pso_init datos_span 1 1 0 flujo_octavos k = some st ∧
      st.mejor_global = [np_uniform 0 1 (flujo_octavos k), 0] ∧
      st.max_iter = 0 := by
  have hlat : datos_span.map (fun p => p.latitud) = [1, 0, 0] := rfl
  have hlon : datos_span.map (fun p => p.longitud) = [0, 0, 0] := rfl
  have hmin : minimo [(1 : ℝ), 0, 0] = 0 := by
    simp [minimo]
  have hmax : maximo [(1 : ℝ), 0, 0] = 1 := by
    simp [maximo]
  have hmin0 : minimo [(0 : ℝ), 0, 0] = 0 := by simp [minimo]
  have hmax0 : maximo [(0 : ℝ), 0, 0] = 0 := by simp [maximo]
  have hpart : inicializar_particulas 0 1 0 0 1 flujo_octavos k 1
      = [[np_uniform 0 1 (flujo_octavos k), 0]] := by
    simp [inicializar_particulas, inicializar_particula, np_uniform_cero]
  obtain ⟨s, hs⟩ := funcion_objetivo_es_some
    [[np_uniform 0 1 (flujo_octavos k), 0]] datos_span
    (by decide) (by decide) (by decide)
  have hlista : evaluar_lista datos_span [[np_uniform 0 1 (flujo_octavos k), 0]]
      = some [s] := by
    have hev : evaluar_particula datos_span [np_uniform 0 1 (flujo_octavos k), 0]
        = some s := hs
    simp [evaluar_lista, hev]
  refine ⟨{ n_sensores := 1, n_particulas := 1, max_iter := 0,
            lat_min := 0, lat_max := 1, lon_min := 0, lon_max := 0,
            enjambre := crear_enjambre [[np_uniform 0 1 (flujo_octavos k), 0]]
              (inicializar_velocidades 1 flujo_octavos (k + 2 * 1 * 1) 1) [s],
            mejor_global :=
              [[np_uniform 0 1 (flujo_octavos k), 0]].getD (np_argmax [s]) [],
            mejor_puntaje_global := [s].getD (np_argmax [s]) 0,
            historial_puntajes := [] }, ?_, ?_, rfl⟩
  · rw [pso_init]
    simp only [hlat, hlon, hmin, hmax, hmin0, hmax0, hpart, hlista, Option.map_some']
  · simp [np_argmax]

/-- C4: the program has no seed parameter at all; both construction and
`optimizar` draw from the ambient global NumPy generator.  Two
back-to-back calls with identical (dataset, hyperparameters) therefore
consume different segments of the ambient stream: here the first call
leaves the generator at offset 4 and returns the sensor configuration
`[[0, 0]]` while the second call returns `[[1/2, 0]]` — the outputs
differ, refuting bit-for-bit reproducibility from one explicitly seeded
generator. -/
theorem c4_teorema :
    (ejecutar datos_span 1 1 0 flujo_octavos 0).2 = 4 ∧
    (ejecutar datos_span 1 1 0 flujo_octavos 0).1
      ≠ (ejecutar datos_span 1 1 0 flujo_octavos 4).1 := by
  obtain ⟨st₁, h₁, hg₁, hT₁⟩ := pso_init_span 0
  obtain ⟨st₂, h₂, hg₂, hT₂⟩ := pso_init_span 4
  have ho₁ : optimizar datos_span flujo_octavos 4 st₁
      = some (formatear_sensores st₁.mejor_global, st₁.mejor_puntaje_global) := by
    rw [optimizar, hT₁]
    rw [show (max 0 (0 : ℤ)).toNat = 0 from rfl, optimizar_bucle]
    rfl
  have ho₂ : optimizar datos_span flujo_octavos 8 st₂
      = some (formatear_sensores st₂.mejor_global, st₂.mejor_puntaje_global) := by
    rw [optimizar, hT₂]
    rw [show (max 0 (0 : ℤ)).toNat = 0 from rfl, optimizar_bucle]
    rfl
  have he₁ : ejecutar datos_span 1 1 0 flujo_octavos 0
      = (optimizar datos_span flujo_octavos 4 st₁, 4) := by
    rw [ejecutar]
    simp only [h₁]
    norm_num
  have he₂ : ejecutar datos_span 1 1 0 flujo_octavos 4
      = (optimizar datos_span flujo_octavos 8 st₂, 8) := by
    rw [ejecutar]
    simp only [h₂]
    norm_num
  have hc₁ : formatear_sensores st₁.mejor_global = [[(0 : ℝ), 0]] := by
    rw [hg₁]
    norm_num [np_uniform, flujo_octavos, formatear_sensores]
  have hc₂ : formatear_sensores st₂.mejor_global = [[(1 / 2 : ℝ), 0]] := by
    rw [hg₂]
    norm_num [np_uniform, flujo_octavos, formatear_sensores]
  constructor
  · rw [he₁]
  · rw [he₁, he₂]
    simp only [ho₁, ho₂, hc₁, hc₂]
    intro heq
    have := congrArg (Option.map Prod.fst) heq
    simp only [Option.map_some', Option.some.injEq, List.cons.injEq] at this
    norm_num at this
